import Mathlib

/-!
# Youritec ILI9806E MIPI-DSI panel driver

A shallow embedding of `drivers/gpu/drm/panel/panel-youritec-ili9806e.c`.

Modelling conventions.

* C `int` / `ssize_t` results are `Int`; `u8` / `u32` values are `Nat`.
* The driver state that the C code reaches through pointers (the
  `ili9806e_panel` object, the `mipi_dsi_device` it points to) is gathered in
  one `Device` record that every operation takes and returns.
* The DSI host is outside the driver.  It is represented by `bus`, the stream
  of results the host will give to the successive transfers (`bus 0` answers
  the next transfer), and by `log`, the ordered list of everything the driver
  did to the hardware: DSI transfers, reset-line writes and sleeps.
* Kernel log output (`printk`, `DRM_DEV_ERROR`, `DRM_DEV_DEBUG_DRIVER`,
  `dev_warn`) has no effect on the panel, the bus or the driver state and is
  left out.
* Constants that come from kernel headers are fields of `KernelConsts` and
  `DisplayConsts`.
* What probe and `get_modes` meet outside the driver (device-tree properties,
  allocation and registration results) is gathered in `ProbeEnv` and
  `ModesEnv`.
-/

namespace Ili9806e

/-! ## Data model -/

/-- The two operations of `enum ili9881c_op` together with their argument
(`union arg`): a page number, or a command byte and a data byte. -/
inductive ili9881c_instr where
  | switch_page (page : Nat)
  | command (cmd : Nat) (data : Nat)
  deriving DecidableEq, Repr

open ili9881c_instr in
/-- The table `ili9881c_init[]`, entry by entry. -/
def ili9881c_init : List ili9881c_instr := [
  switch_page 1, command 0x08 0x10, command 0x20 0x00, command 0x21 0x01,
  command 0x30 0x01, command 0x31 0x00, command 0x40 0x16, command 0x41 0x33,
  command 0x42 0x03, command 0x43 0x09, command 0x44 0x06, command 0x50 0x88,
  command 0x51 0x88, command 0x52 0x00, command 0x53 0x49, command 0x55 0x49,
  command 0x60 0x07, command 0x61 0x00, command 0x62 0x07, command 0x63 0x00,
  command 0xA0 0x00, command 0xA1 0x09, command 0xA2 0x11, command 0xA3 0x0B,
  command 0xA4 0x05, command 0xA5 0x08, command 0xA6 0x06, command 0xA7 0x04,
  command 0xA8 0x09, command 0xA9 0x0C, command 0xAA 0x15, command 0xAB 0x08,
  command 0xAC 0x0F, command 0xAD 0x12, command 0xAE 0x09, command 0xAF 0x00,
  command 0xC0 0x00, command 0xC1 0x09, command 0xC2 0x10, command 0xC3 0x0C,
  command 0xC4 0x05, command 0xC5 0x08, command 0xC6 0x06, command 0xC7 0x04,
  command 0xC8 0x08, command 0xC9 0x0C, command 0xCA 0x14, command 0xCB 0x08,
  command 0xCC 0x0F, command 0xCD 0x11, command 0xCE 0x09, command 0xCF 0x00,
  switch_page 6, command 0x00 0x20, command 0x01 0x0A, command 0x02 0x00,
  command 0x03 0x00, command 0x04 0x01, command 0x05 0x01, command 0x06 0x98,
  command 0x07 0x06, command 0x08 0x01, command 0x09 0x80, command 0x0A 0x00,
  command 0x0B 0x00, command 0x0C 0x01, command 0x0D 0x01, command 0x0E 0x05,
  command 0x0F 0x00, command 0x10 0xF0, command 0x11 0xF4, command 0x12 0x01,
  command 0x13 0x00, command 0x14 0x00, command 0x15 0xC0, command 0x16 0x08,
  command 0x17 0x00, command 0x18 0x00, command 0x19 0x00, command 0x1A 0x00,
  command 0x1B 0x00, command 0x1C 0x00, command 0x1D 0x00, command 0x20 0x01,
  command 0x21 0x23, command 0x22 0x45, command 0x23 0x67, command 0x24 0x01,
  command 0x25 0x23, command 0x26 0x45, command 0x27 0x67, command 0x30 0x11,
  command 0x31 0x11, command 0x32 0x00, command 0x33 0xEE, command 0x34 0xFF,
  command 0x35 0xBB, command 0x36 0xAA, command 0x37 0xDD, command 0x38 0xCC,
  command 0x39 0x66, command 0x3A 0x77, command 0x3B 0x22, command 0x3C 0x22,
  command 0x3D 0x22, command 0x3E 0x22, command 0x3F 0x22, command 0x40 0x22,
  switch_page 7, command 0x17 0x22, command 0x02 0x77, command 0x26 0xB2,
  switch_page 0]

/-- The enumeration `enum mipi_dsi_pixel_format` of the DSI core.  A C enum
object may hold a value that is none of the named enumerators; `other` stands
for such a value. -/
inductive mipi_dsi_pixel_format where
  | MIPI_DSI_FMT_RGB888
  | MIPI_DSI_FMT_RGB666
  | MIPI_DSI_FMT_RGB666_PACKED
  | MIPI_DSI_FMT_RGB565
  | other (raw : Nat)
  deriving DecidableEq, Repr

/-- Header constants used by the driver: the errnos `EPERM` and `ENOMEM` and
the `MIPI_DSI_MODE_*` flag bits of `drm_mipi_dsi.h`. -/
structure KernelConsts where
  EPERM : Int
  MIPI_DSI_MODE_VIDEO : Nat
  MIPI_DSI_MODE_VIDEO_BURST : Nat
  MIPI_DSI_MODE_VIDEO_SYNC_PULSE : Nat
  MIPI_DSI_MODE_LPM : Nat
  ENOMEM : Int

/-- The values the Linux headers give to the constants: `EPERM` is 1, the mode
flags are `BIT(0)`, `BIT(1)`, `BIT(2)` and `BIT(11)`, `ENOMEM` is 12. -/
def linux_consts : KernelConsts :=
  { EPERM := 1
    MIPI_DSI_MODE_VIDEO := 1
    MIPI_DSI_MODE_VIDEO_BURST := 2
    MIPI_DSI_MODE_VIDEO_SYNC_PULSE := 4
    MIPI_DSI_MODE_LPM := 2048
    ENOMEM := 12 }

/-- Header constants used by `ili9806e_panel_get_modes` and by the mode
translation: the `DISPLAY_FLAGS_*` bits of `display_timing.h`, the
`DRM_MODE_FLAG_*` and `DRM_MODE_TYPE_*` bits of the DRM mode headers, the
`DRM_BUS_FLAG_*` bits of `drm_connector.h` and the `MEDIA_BUS_FMT_*` codes of
`media-bus-format.h`. -/
structure DisplayConsts where
  DISPLAY_FLAGS_HSYNC_LOW : Nat
  DISPLAY_FLAGS_HSYNC_HIGH : Nat
  DISPLAY_FLAGS_VSYNC_LOW : Nat
  DISPLAY_FLAGS_VSYNC_HIGH : Nat
  DISPLAY_FLAGS_DE_LOW : Nat
  DISPLAY_FLAGS_DE_HIGH : Nat
  DISPLAY_FLAGS_PIXDATA_POSEDGE : Nat
  DISPLAY_FLAGS_PIXDATA_NEGEDGE : Nat
  DISPLAY_FLAGS_INTERLACED : Nat
  DISPLAY_FLAGS_DOUBLESCAN : Nat
  DISPLAY_FLAGS_DOUBLECLK : Nat
  DRM_MODE_FLAG_PHSYNC : Nat
  DRM_MODE_FLAG_NHSYNC : Nat
  DRM_MODE_FLAG_PVSYNC : Nat
  DRM_MODE_FLAG_NVSYNC : Nat
  DRM_MODE_FLAG_INTERLACE : Nat
  DRM_MODE_FLAG_DBLSCAN : Nat
  DRM_MODE_FLAG_DBLCLK : Nat
  DRM_MODE_TYPE_PREFERRED : Nat
  DRM_MODE_TYPE_DRIVER : Nat
  DRM_BUS_FLAG_DE_LOW : Nat
  DRM_BUS_FLAG_DE_HIGH : Nat
  DRM_BUS_FLAG_PIXDATA_POSEDGE : Nat
  DRM_BUS_FLAG_PIXDATA_NEGEDGE : Nat
  MEDIA_BUS_FMT_RGB888_1X24 : Nat
  MEDIA_BUS_FMT_RGB666_1X18 : Nat
  MEDIA_BUS_FMT_RGB565_1X16 : Nat

/-- The values the Linux headers give to the display constants. -/
def linux_display_consts : DisplayConsts :=
  { DISPLAY_FLAGS_HSYNC_LOW := 0x1
    DISPLAY_FLAGS_HSYNC_HIGH := 0x2
    DISPLAY_FLAGS_VSYNC_LOW := 0x4
    DISPLAY_FLAGS_VSYNC_HIGH := 0x8
    DISPLAY_FLAGS_DE_LOW := 0x10
    DISPLAY_FLAGS_DE_HIGH := 0x20
    DISPLAY_FLAGS_PIXDATA_POSEDGE := 0x40
    DISPLAY_FLAGS_PIXDATA_NEGEDGE := 0x80
    DISPLAY_FLAGS_INTERLACED := 0x100
    DISPLAY_FLAGS_DOUBLESCAN := 0x200
    DISPLAY_FLAGS_DOUBLECLK := 0x400
    DRM_MODE_FLAG_PHSYNC := 0x1
    DRM_MODE_FLAG_NHSYNC := 0x2
    DRM_MODE_FLAG_PVSYNC := 0x4
    DRM_MODE_FLAG_NVSYNC := 0x8
    DRM_MODE_FLAG_INTERLACE := 0x10
    DRM_MODE_FLAG_DBLSCAN := 0x20
    DRM_MODE_FLAG_DBLCLK := 0x1000
    DRM_MODE_TYPE_PREFERRED := 0x8
    DRM_MODE_TYPE_DRIVER := 0x40
    DRM_BUS_FLAG_DE_LOW := 0x1
    DRM_BUS_FLAG_DE_HIGH := 0x2
    DRM_BUS_FLAG_PIXDATA_POSEDGE := 0x4
    DRM_BUS_FLAG_PIXDATA_NEGEDGE := 0x8
    MEDIA_BUS_FMT_RGB888_1X24 := 0x100a
    MEDIA_BUS_FMT_RGB666_1X18 := 0x1009
    MEDIA_BUS_FMT_RGB565_1X16 := 0x1017 }

/-- One `struct timing_entry`: the minimum, typical and maximum value. -/
structure timing_entry where
  min : Nat
  typ : Nat
  max : Nat
  deriving DecidableEq, Repr

/-- The fields of `struct display_timing`. -/
structure display_timing where
  pixelclock : timing_entry
  hactive : timing_entry
  hfront_porch : timing_entry
  hback_porch : timing_entry
  hsync_len : timing_entry
  vactive : timing_entry
  vfront_porch : timing_entry
  vback_porch : timing_entry
  vsync_len : timing_entry
  flags : Nat
  deriving DecidableEq, Repr

/-- The fields of `struct drm_display_mode` the driver and the mode translation
write. -/
structure drm_display_mode where
  clock : Nat
  hdisplay : Nat
  hsync_start : Nat
  hsync_end : Nat
  htotal : Nat
  vdisplay : Nat
  vsync_start : Nat
  vsync_end : Nat
  vtotal : Nat
  flags : Nat
  type : Nat
  width_mm : Nat
  height_mm : Nat
  deriving DecidableEq, Repr

/-- The fields of `struct drm_display_info` the driver writes. -/
structure drm_display_info where
  width_mm : Nat
  height_mm : Nat
  bus_flags : Nat
  bus_formats : List Nat
  deriving DecidableEq, Repr

/-- The connector as the driver sees it: its display info and the list of
probed modes. -/
structure drm_connector where
  display_info : drm_display_info
  probed_modes : List drm_display_mode
  deriving DecidableEq, Repr

/-- The fields of `struct videomode` the driver stores. -/
structure videomode where
  pixelclock : Nat
  hactive : Nat
  hfront_porch : Nat
  hback_porch : Nat
  hsync_len : Nat
  vactive : Nat
  vfront_porch : Nat
  vback_porch : Nat
  vsync_len : Nat
  flags : Nat
  deriving DecidableEq, Repr

/-- The fields of `struct mipi_dsi_device` the driver reads or writes. -/
structure mipi_dsi_device where
  lanes : Nat
  format : mipi_dsi_pixel_format
  mode_flags : Nat
  deriving DecidableEq, Repr

/-- The driver object `struct ili9806e_panel`.  `reset` is true when the
`reset` pointer is not `NULL`. -/
structure ili9806e_panel where
  reset : Bool
  prepared : Bool
  enabled : Bool
  vm : videomode
  width_mm : Nat
  height_mm : Nat
  deriving DecidableEq, Repr

/-- What the driver does to the hardware. -/
inductive Action where
  | dcs_write_buffer (buf : List Nat)
  | dcs_soft_reset
  | dcs_set_pixel_format (format : Int)
  | dcs_exit_sleep_mode
  | dcs_set_display_on
  | dcs_set_display_off
  | dcs_enter_sleep_mode
  | gpiod_set_value (value : Int)
  | msleep (msecs : Nat)
  deriving DecidableEq, Repr

/-- The panel object, its DSI device, the results the DSI host will return to
the coming transfers, and the hardware actions performed so far. -/
structure Device where
  panel : ili9806e_panel
  dsi : mipi_dsi_device
  bus : Nat → Int
  log : List Action

/-- What `ili9806e_panel_probe` meets outside the driver: whether
`devm_kzalloc` succeeds; the `video-mode` property when
`of_property_read_u32` can read it; when the `display-timings` child node is
present, the return value of `of_get_videomode` and the mode it stores; the
`panel-width-mm` and `panel-height-mm` properties when they can be read;
whether `devm_gpiod_get` finds the reset line; the return values of
`drm_panel_add` and `mipi_dsi_attach`. -/
structure ProbeEnv where
  kzalloc_ok : Bool
  video_mode : Option Nat
  display_timings : Option (Int × videomode)
  panel_width_mm : Option Nat
  panel_height_mm : Option Nat
  reset_found : Bool
  drm_panel_add_ret : Int
  mipi_dsi_attach_ret : Int

/-- What `ili9806e_panel_get_modes` meets outside the driver: whether
`drm_mode_create` returns a mode, and the return value of
`drm_display_info_set_bus_formats`. -/
structure ModesEnv where
  mode_create_ok : Bool
  set_bus_formats_ret : Int

/-! ## Collaborators -/

/-- One DSI transfer: the action is appended to the log, the host answers with
the head of its result stream, and the stream advances. -/
def dsi_transfer (a : Action) (s : Device) : Int × Device :=
  (s.bus 0, { s with bus := fun n => s.bus (n + 1), log := s.log ++ [a] })

/-- The DSI core function `mipi_dsi_dcs_write_buffer`: a negative errno on
failure, otherwise the number of bytes sent. -/
def mipi_dsi_dcs_write_buffer (buf : List Nat) (s : Device) : Int × Device :=
  dsi_transfer (.dcs_write_buffer buf) s

/-- The DSI core function `mipi_dsi_dcs_soft_reset`. -/
def mipi_dsi_dcs_soft_reset (s : Device) : Int × Device :=
  dsi_transfer .dcs_soft_reset s

/-- The DSI core function `mipi_dsi_dcs_set_pixel_format`; its `format`
parameter is a `u8`. -/
def mipi_dsi_dcs_set_pixel_format (format : Int) (s : Device) : Int × Device :=
  dsi_transfer (.dcs_set_pixel_format (format % 256)) s

/-- The DSI core function `mipi_dsi_dcs_exit_sleep_mode`. -/
def mipi_dsi_dcs_exit_sleep_mode (s : Device) : Int × Device :=
  dsi_transfer .dcs_exit_sleep_mode s

/-- The DSI core function `mipi_dsi_dcs_set_display_on`. -/
def mipi_dsi_dcs_set_display_on (s : Device) : Int × Device :=
  dsi_transfer .dcs_set_display_on s

/-- The DSI core function `mipi_dsi_dcs_set_display_off`. -/
def mipi_dsi_dcs_set_display_off (s : Device) : Int × Device :=
  dsi_transfer .dcs_set_display_off s

/-- The DSI core function `mipi_dsi_dcs_enter_sleep_mode`. -/
def mipi_dsi_dcs_enter_sleep_mode (s : Device) : Int × Device :=
  dsi_transfer .dcs_enter_sleep_mode s

/-- The gpiolib function `gpiod_set_value`: it returns at once when the
descriptor is `NULL`. -/
def gpiod_set_value (desc : Bool) (value : Int) (s : Device) : Device :=
  if desc then { s with log := s.log ++ [.gpiod_set_value value] } else s

/-- The blocking sleep `msleep`. -/
def msleep (msecs : Nat) (s : Device) : Device :=
  { s with log := s.log ++ [.msleep msecs] }

/-- Modelled from the spec: `videomode_from_timing` of the video core is not
among the sources.  The stored video mode carries the values of the timing
descriptor, the typical value of each entry, and its flags. -/
def videomode_from_timing (dt : display_timing) : videomode :=
  { pixelclock := dt.pixelclock.typ
    hactive := dt.hactive.typ
    hfront_porch := dt.hfront_porch.typ
    hback_porch := dt.hback_porch.typ
    hsync_len := dt.hsync_len.typ
    vactive := dt.vactive.typ
    vfront_porch := dt.vfront_porch.typ
    vback_porch := dt.vback_porch.typ
    vsync_len := dt.vsync_len.typ
    flags := dt.flags }

/-- Modelled from the spec: `drm_display_mode_from_videomode` of the DRM core
is not among the sources.  The timing descriptor is translated into the host
mode representation: the active size, then sync start, sync end and total as
the running sums of front porch, sync length and back porch; the clock in kHz;
the sync and scan flags from the descriptor flag bits.  The other fields of the
fresh mode are 0. -/
def drm_display_mode_from_videomode (c : DisplayConsts) (vm : videomode) :
    drm_display_mode :=
  let f0 : Nat := 0
  let f1 :=
    if vm.flags &&& c.DISPLAY_FLAGS_HSYNC_HIGH ≠ 0 then f0 ||| c.DRM_MODE_FLAG_PHSYNC
    else if vm.flags &&& c.DISPLAY_FLAGS_HSYNC_LOW ≠ 0 then f0 ||| c.DRM_MODE_FLAG_NHSYNC
    else f0
  let f2 :=
    if vm.flags &&& c.DISPLAY_FLAGS_VSYNC_HIGH ≠ 0 then f1 ||| c.DRM_MODE_FLAG_PVSYNC
    else if vm.flags &&& c.DISPLAY_FLAGS_VSYNC_LOW ≠ 0 then f1 ||| c.DRM_MODE_FLAG_NVSYNC
    else f1
  let f3 :=
    if vm.flags &&& c.DISPLAY_FLAGS_INTERLACED ≠ 0 then f2 ||| c.DRM_MODE_FLAG_INTERLACE
    else f2
  let f4 :=
    if vm.flags &&& c.DISPLAY_FLAGS_DOUBLESCAN ≠ 0 then f3 ||| c.DRM_MODE_FLAG_DBLSCAN
    else f3
  let f5 :=
    if vm.flags &&& c.DISPLAY_FLAGS_DOUBLECLK ≠ 0 then f4 ||| c.DRM_MODE_FLAG_DBLCLK
    else f4
  { clock := vm.pixelclock / 1000
    hdisplay := vm.hactive
    hsync_start := vm.hactive + vm.hfront_porch
    hsync_end := vm.hactive + vm.hfront_porch + vm.hsync_len
    htotal := vm.hactive + vm.hfront_porch + vm.hsync_len + vm.hback_porch
    vdisplay := vm.vactive
    vsync_start := vm.vactive + vm.vfront_porch
    vsync_end := vm.vactive + vm.vfront_porch + vm.vsync_len
    vtotal := vm.vactive + vm.vfront_porch + vm.vsync_len + vm.vback_porch
    flags := f5
    type := 0
    width_mm := 0
    height_mm := 0 }

/-- The DRM core function `drm_display_info_set_bus_formats`: the formats are
stored when it returns 0. -/
def drm_display_info_set_bus_formats (ret : Int) (formats : List Nat)
    (info : drm_display_info) : Int × drm_display_info :=
  if ret = 0 then (ret, { info with bus_formats := formats }) else (ret, info)

/-! ## The driver -/

/-- The statement `dsi->mode_flags |= MIPI_DSI_MODE_LPM;`. -/
def set_lpm (k : KernelConsts) (s : Device) : Device :=
  { s with dsi := { s.dsi with
      mode_flags := s.dsi.mode_flags ||| k.MIPI_DSI_MODE_LPM } }

/-- `ili9881c_switch_page`. -/
def ili9881c_switch_page (page : Nat) (s : Device) : Int × Device :=
  let buf := [0xff, 0xff, 0x98, 0x06, 0x04, page]
  let (ret, s) := mipi_dsi_dcs_write_buffer buf s
  if ret < 0 then (ret, s) else (0, s)

/-- `ili9881c_send_cmd_data`. -/
def ili9881c_send_cmd_data (cmd data : Nat) (s : Device) : Int × Device :=
  let buf := [cmd, data]
  let (ret, s) := mipi_dsi_dcs_write_buffer buf s
  if ret < 0 then (ret, s) else (0, s)

/-- The body of the `for` loop of `ili9806e_panel_push_cmd_list`, run over the
table entries that remain; `ret` is the local variable of that name. -/
def push_cmd_loop : List ili9881c_instr → Int → Device → Int × Device
  | [], ret, s => (ret, s)
  | instr :: rest, _, s =>
    let (ret, s) :=
      match instr with
      | .switch_page page => ili9881c_switch_page page s
      | .command cmd data => ili9881c_send_cmd_data cmd data s
    if ret ≠ 0 then (ret, s) else push_cmd_loop rest ret s

/-- `ili9806e_panel_push_cmd_list`.  The local `ret` has no initialiser in C;
the table is not empty, so the first iteration assigns it before it is read,
and the loop is started here with 0. -/
def ili9806e_panel_push_cmd_list (s : Device) : Int × Device :=
  push_cmd_loop ili9881c_init 0 s

/-- `color_format_from_dsi_format`. -/
def color_format_from_dsi_format (format : mipi_dsi_pixel_format) : Int :=
  match format with
  | .MIPI_DSI_FMT_RGB565 => 0x55
  | .MIPI_DSI_FMT_RGB666 => 0x66
  | .MIPI_DSI_FMT_RGB666_PACKED => 0x66
  | .MIPI_DSI_FMT_RGB888 => 0x77
  | .other _ => 0x77

/-- `ili9806e_panel_prepare`.  The `printk` and the empty
`if (ili9806e->reset != NULL) { }` block do nothing to the device. -/
def ili9806e_panel_prepare (s : Device) : Int × Device :=
  if s.panel.prepared then (0, s)
  else (0, { s with panel := { s.panel with prepared := true } })

/-- `ili9806e_panel_unprepare`. -/
def ili9806e_panel_unprepare (k : KernelConsts) (s : Device) : Int × Device :=
  if !s.panel.prepared then (0, s)
  else if s.panel.enabled then (-k.EPERM, s)
  else (0, { s with panel := { s.panel with prepared := false } })

/-- The `fail:` label of `ili9806e_panel_enable`. -/
def enable_fail (ret : Int) (s : Device) : Int × Device :=
  if s.panel.reset then (ret, gpiod_set_value s.panel.reset 0 s) else (ret, s)

/-- `ili9806e_panel_enable`. -/
def ili9806e_panel_enable (k : KernelConsts) (s : Device) : Int × Device :=
  let color_format := color_format_from_dsi_format s.dsi.format
  if s.panel.enabled then (0, s)
  else if !s.panel.prepared then (-k.EPERM, s)
  else
    let s := set_lpm k s
    let s := gpiod_set_value s.panel.reset 0 s
    let s := msleep 20 s
    let s := gpiod_set_value s.panel.reset 1 s
    let s := msleep 100 s
    let s := (mipi_dsi_dcs_soft_reset s).2
    let s := msleep 20 s
    let (ret, s) := ili9806e_panel_push_cmd_list s
    if ret < 0 then enable_fail ret s
    else
      let (ret, s) := mipi_dsi_dcs_set_pixel_format color_format s
      if ret < 0 then enable_fail ret s
      else
        let (ret, s) := mipi_dsi_dcs_exit_sleep_mode s
        if ret < 0 then enable_fail ret s
        else
          let s := msleep 125 s
          let (ret, s) := mipi_dsi_dcs_set_display_on s
          if ret < 0 then enable_fail ret s
          else
            let s := msleep 20 s
            (0, { s with panel := { s.panel with enabled := true } })

/-- `ili9806e_panel_disable`. -/
def ili9806e_panel_disable (k : KernelConsts) (s : Device) : Int × Device :=
  if !s.panel.enabled then (0, s)
  else
    let s := set_lpm k s
    let (ret, s) := mipi_dsi_dcs_set_display_off s
    if ret < 0 then (ret, s)
    else
      let s := msleep 5 s
      let (ret, s) := mipi_dsi_dcs_enter_sleep_mode s
      if ret < 0 then (ret, s)
      else
        let s := msleep 100 s
        (0, { s with panel := { s.panel with enabled := false } })

/-- The table `ili9806e_bus_formats[]`. -/
def ili9806e_bus_formats (c : DisplayConsts) : List Nat :=
  [c.MEDIA_BUS_FMT_RGB888_1X24, c.MEDIA_BUS_FMT_RGB666_1X18, c.MEDIA_BUS_FMT_RGB565_1X16]

/-- `ili9806e_panel_get_modes`: the return value and the connector. -/
def ili9806e_panel_get_modes (c : DisplayConsts) (env : ModesEnv) (p : ili9806e_panel)
    (connector : drm_connector) : Int × drm_connector :=
  if !env.mode_create_ok then (0, connector)
  else
    let mode := drm_display_mode_from_videomode c p.vm
    let mode := { mode with width_mm := p.width_mm }
    let mode := { mode with height_mm := p.height_mm }
    let info := connector.display_info
    let info := { info with width_mm := p.width_mm }
    let info := { info with height_mm := p.height_mm }
    let mode := { mode with type := c.DRM_MODE_TYPE_DRIVER ||| c.DRM_MODE_TYPE_PREFERRED }
    let info :=
      if p.vm.flags &&& c.DISPLAY_FLAGS_DE_HIGH ≠ 0
      then { info with bus_flags := info.bus_flags ||| c.DRM_BUS_FLAG_DE_HIGH } else info
    let info :=
      if p.vm.flags &&& c.DISPLAY_FLAGS_DE_LOW ≠ 0
      then { info with bus_flags := info.bus_flags ||| c.DRM_BUS_FLAG_DE_LOW } else info
    let info :=
      if p.vm.flags &&& c.DISPLAY_FLAGS_PIXDATA_NEGEDGE ≠ 0
      then { info with bus_flags := info.bus_flags ||| c.DRM_BUS_FLAG_PIXDATA_NEGEDGE }
      else info
    let info :=
      if p.vm.flags &&& c.DISPLAY_FLAGS_PIXDATA_POSEDGE ≠ 0
      then { info with bus_flags := info.bus_flags ||| c.DRM_BUS_FLAG_PIXDATA_POSEDGE }
      else info
    let (ret, info) := drm_display_info_set_bus_formats env.set_bus_formats_ret
      (ili9806e_bus_formats c) info
    if ret ≠ 0 then (ret, { connector with display_info := info })
    else
      (1, { display_info := info, probed_modes := connector.probed_modes ++ [mode] })

/-- The constant `ili9806e_default_timing`; its `flags` member has no
initialiser and is 0. -/
def ili9806e_default_timing : display_timing :=
  { pixelclock := ⟨30000000, 30000000, 30000000⟩
    hactive := ⟨480, 480, 480⟩
    hfront_porch := ⟨100, 100, 100⟩
    hsync_len := ⟨10, 10, 10⟩
    hback_porch := ⟨50, 50, 50⟩
    vactive := ⟨854, 854, 854⟩
    vfront_porch := ⟨20, 20, 20⟩
    vsync_len := ⟨4, 4, 4⟩
    vback_porch := ⟨16, 16, 16⟩
    flags := 0 }

/-- The `video-mode` part of `ili9806e_panel_probe`: the mode flags after the
`switch`, from the flags before it and the property when it could be read. -/
def probe_video_mode (k : KernelConsts) (mode_flags : Nat) (video_mode : Option Nat) : Nat :=
  match video_mode with
  | none => mode_flags
  | some 0 => mode_flags ||| k.MIPI_DSI_MODE_VIDEO_BURST
  | some 1 => mode_flags
  | some 2 => mode_flags ||| k.MIPI_DSI_MODE_VIDEO_SYNC_PULSE
  | some _ => mode_flags

/-- The end of `ili9806e_panel_probe`, from the reading of `panel-width-mm`
on.  `devm_gpiod_get` gives the reset line (`reset_found`) or an error pointer,
which the driver replaces by `NULL`; the output level it asks for with
`GPIOD_OUT_HIGH` is set inside gpiolib and is not recorded. -/
def probe_tail (env : ProbeEnv) (s : Device) : Int × Option Device :=
  let s := match env.panel_width_mm with
    | some w => { s with panel := { s.panel with width_mm := w } }
    | none => s
  let s := match env.panel_height_mm with
    | some h => { s with panel := { s.panel with height_mm := h } }
    | none => s
  let s := { s with panel := { s.panel with reset := env.reset_found } }
  let s := if s.panel.reset then gpiod_set_value s.panel.reset 0 s else s
  let ret := env.drm_panel_add_ret
  if ret < 0 then (ret, some s)
  else
    let ret := env.mipi_dsi_attach_ret
    (ret, some s)

/-- `ili9806e_panel_probe`: the return value and, unless the allocation
failed, the driver objects as they are when it returns.  The panel object
starts zeroed (`devm_kzalloc`); `bus` is the stream of results the DSI host
will give.  The registration with the DRM core (`drm_panel_add`,
`drm_panel_remove`, `mipi_dsi_attach`) is seen only through the return
values. -/
def ili9806e_panel_probe (k : KernelConsts) (env : ProbeEnv) (bus : Nat → Int) :
    Int × Option Device :=
  if !env.kzalloc_ok then (-k.ENOMEM, none)
  else
    let panel : ili9806e_panel :=
      { reset := false, prepared := false, enabled := false,
        vm := ⟨0, 0, 0, 0, 0, 0, 0, 0, 0, 0⟩, width_mm := 0, height_mm := 0 }
    let mode_flags := k.MIPI_DSI_MODE_VIDEO ||| k.MIPI_DSI_MODE_VIDEO_BURST
      ||| k.MIPI_DSI_MODE_LPM
    let mode_flags := probe_video_mode k mode_flags env.video_mode
    let dsi : mipi_dsi_device :=
      { lanes := 2, format := .MIPI_DSI_FMT_RGB888, mode_flags := mode_flags }
    let s : Device := { panel := panel, dsi := dsi, bus := bus, log := [] }
    match env.display_timings with
    | some (ret, vm) =>
      let s := { s with panel := { s.panel with vm := vm } }
      if ret < 0 then (ret, some s) else probe_tail env s
    | none =>
      let vm := videomode_from_timing ili9806e_default_timing
      let s := { s with panel := { s.panel with vm := vm } }
      probe_tail env s

/-- `ili9806e_panel_shutdown`. -/
def ili9806e_panel_shutdown (k : KernelConsts) (s : Device) : Device :=
  let s := (ili9806e_panel_disable k s).2
  let s := (ili9806e_panel_unprepare k s).2
  s

/-! ## Vocabulary of the specification -/

/-- The three lifecycle states of the specification. -/
inductive Lifecycle where
  | Unprepared
  | Prepared
  | Enabled
  deriving DecidableEq, Repr

/-- The lifecycle state a pair of driver flags stands for; the pair
`prepared = false`, `enabled = true` stands for none. -/
def lifecycle (p : ili9806e_panel) : Option Lifecycle :=
  match p.prepared, p.enabled with
  | false, false => some .Unprepared
  | true, false => some .Prepared
  | true, true => some .Enabled
  | false, true => none

/-- The four lifecycle entry points of `ili9806e_panel_funcs`. -/
inductive Call where
  | prepare
  | enable
  | disable
  | unprepare
  deriving DecidableEq, Repr

/-- One call of a lifecycle entry point. -/
def call (k : KernelConsts) (c : Call) (s : Device) : Int × Device :=
  match c with
  | .prepare => ili9806e_panel_prepare s
  | .enable => ili9806e_panel_enable k s
  | .disable => ili9806e_panel_disable k s
  | .unprepare => ili9806e_panel_unprepare k s

/-- A sequence of lifecycle calls, the return values dropped. -/
def run_calls (k : KernelConsts) : List Call → Device → Device
  | [], s => s
  | c :: cs, s => run_calls k cs (call k c s).2

/-- The frame an instruction is sent as: six bytes for a page switch, two
bytes for a register write. -/
def frame (i : ili9881c_instr) : List Nat :=
  match i with
  | .switch_page page => [0xff, 0xff, 0x98, 0x06, 0x04, page]
  | .command cmd data => [cmd, data]

/-- The DSI transfers recorded in a log, in order. -/
def bus_writes (l : List Action) : List Action :=
  l.filter fun a =>
    match a with
    | .gpiod_set_value _ => false
    | .msleep _ => false
    | _ => true

/-- The reset-line levels recorded in a log, in order. -/
def reset_levels (l : List Action) : List Int :=
  l.filterMap fun a =>
    match a with
    | .gpiod_set_value v => some v
    | _ => none

/-- The sleeps recorded in a log, in order. -/
def delays (l : List Action) : List Nat :=
  l.filterMap fun a =>
    match a with
    | .msleep ms => some ms
    | _ => none

/-- The page numbers of the page switches of a program, in order. -/
def pages (prog : List ili9881c_instr) : List Nat :=
  prog.filterMap fun i =>
    match i with
    | .switch_page p => some p
    | .command _ _ => none

/-- Whether an instruction is a register write. -/
def is_command (i : ili9881c_instr) : Bool :=
  match i with
  | .switch_page _ => false
  | .command _ _ => true

/-- The transfer one table entry is sent as. -/
def instr_write (i : ili9881c_instr) : Action :=
  .dcs_write_buffer (frame i)

/-- The device after the host has answered `n` transfers and the actions `as`
have been logged. -/
def advance (s : Device) (n : Nat) (as : List Action) : Device :=
  { s with bus := fun m => s.bus (m + n), log := s.log ++ as }

/-- The actions of `enable` from the reset pulse to the sleep after the soft
reset, for a panel with (`true`) or without (`false`) a reset line. -/
def enable_preamble (reset : Bool) : List Action :=
  (if reset then [Action.gpiod_set_value 0] else []) ++ [Action.msleep 20]
    ++ (if reset then [Action.gpiod_set_value 1] else [])
    ++ [Action.msleep 100, Action.dcs_soft_reset, Action.msleep 20]

/-- The transfers of a complete `enable`, in order: soft reset, the init
program, pixel format, exit sleep, display on. -/
def enable_writes (format : mipi_dsi_pixel_format) : List Action :=
  [Action.dcs_soft_reset] ++ ili9881c_init.map instr_write
    ++ [Action.dcs_set_pixel_format (color_format_from_dsi_format format),
        Action.dcs_exit_sleep_mode, Action.dcs_set_display_on]

/-- The actions of an `enable` whose transfers are all accepted, in order. -/
def enable_actions (reset : Bool) (format : mipi_dsi_pixel_format) : List Action :=
  enable_preamble reset ++ ili9881c_init.map instr_write
    ++ [Action.dcs_set_pixel_format (color_format_from_dsi_format format),
        Action.dcs_exit_sleep_mode, Action.msleep 125, Action.dcs_set_display_on,
        Action.msleep 20]

/-- The device `t` comes from `s` by logging more actions, none of them a
reset-line write, and has the same reset line. -/
def quiet_ext (s t : Device) : Prop :=
  t.panel.reset = s.panel.reset
    ∧ ∃ rest, t.log = s.log ++ rest ∧ reset_levels rest = []

/-- The page selected after an instruction, from the page selected before it
(`none`: not known). -/
def page_after (cur : Option Nat) (i : ili9881c_instr) : Option Nat :=
  match i with
  | .switch_page p => some p
  | .command _ _ => cur

/-- The page selected after a program: `page_after` folded over it. -/
def final_page (prog : List ili9881c_instr) (cur : Option Nat) : Option Nat :=
  prog.foldl page_after cur

/-- Whether every register write of a program is issued while a known page
other than 0 is selected. -/
def writes_off_page0 : Option Nat → List ili9881c_instr → Bool
  | _, [] => true
  | _, .switch_page p :: rest => writes_off_page0 (some p) rest
  | cur, .command _ _ :: rest =>
    (match cur with
      | some p => p != 0
      | none => false) && writes_off_page0 cur rest

/-- Whether a flag word has every bit of `bit` set. -/
def has_flag (flags bit : Nat) : Bool :=
  flags &&& bit == bit

/-- A probe environment for experiments: allocation and registration succeed,
no property and no `display-timings` node is present, the reset line is
found. -/
def sample_env : ProbeEnv :=
  { kzalloc_ok := true, video_mode := none, display_timings := none,
    panel_width_mm := none, panel_height_mm := none, reset_found := true,
    drm_panel_add_ret := 0, mipi_dsi_attach_ret := 0 }

/-- A device for experiments: a panel with the given flags and reset line, an
RGB888 DSI device, an empty log and the given host results. -/
def sample (reset prepared enabled : Bool) (bus : Nat → Int) : Device :=
  { panel := { reset := reset, prepared := prepared, enabled := enabled,
               vm := ⟨0, 0, 0, 0, 0, 0, 0, 0, 0, 0⟩, width_mm := 0, height_mm := 0 }
    dsi := { lanes := 2, format := .MIPI_DSI_FMT_RGB888, mode_flags := 0 }
    bus := bus
    log := [] }

/-! ## Basic facts -/

theorem advance_panel (s : Device) (n : Nat) (as : List Action) :
    (advance s n as).panel = s.panel := rfl

theorem advance_dsi (s : Device) (n : Nat) (as : List Action) :
    (advance s n as).dsi = s.dsi := rfl

theorem advance_log (s : Device) (n : Nat) (as : List Action) :
    (advance s n as).log = s.log ++ as := rfl

theorem advance_bus (s : Device) (n : Nat) (as : List Action) (m : Nat) :
    (advance s n as).bus m = s.bus (m + n) := rfl

theorem advance_advance (s : Device) (n m : Nat) (as bs : List Action) :
    advance (advance s n as) m bs = advance s (n + m) (as ++ bs) := by
  simp only [advance, List.append_assoc]
  congr 1
  funext i
  congr 1
  omega

/-- One loop body: the entry is sent as its frame; a negative host result is
returned as it is, any other becomes 0. -/
theorem instr_step (i : ili9881c_instr) (s : Device) :
    (match i with
      | .switch_page page => ili9881c_switch_page page s
      | .command cmd data => ili9881c_send_cmd_data cmd data s)
      = (if s.bus 0 < 0 then s.bus 0 else 0, advance s 1 [instr_write i]) := by
  cases i <;>
    simp only [ili9881c_switch_page, ili9881c_send_cmd_data, mipi_dsi_dcs_write_buffer,
      dsi_transfer, advance, instr_write, frame] <;>
    split_ifs <;> rfl

theorem push_cmd_loop_cons (i : ili9881c_instr) (rest : List ili9881c_instr) (ret : Int)
    (s : Device) :
    push_cmd_loop (i :: rest) ret s
      = (match (match i with
          | .switch_page page => ili9881c_switch_page page s
          | .command cmd data => ili9881c_send_cmd_data cmd data s) with
        | (ret, s) => if ret ≠ 0 then (ret, s) else push_cmd_loop rest ret s) := rfl

theorem push_cmd_loop_ok (prog : List ili9881c_instr) (s : Device)
    (h : ∀ n, n < prog.length → 0 ≤ s.bus n) :
    push_cmd_loop prog 0 s = (0, advance s prog.length (prog.map instr_write)) := by
  induction prog generalizing s with
  | nil =>
    simp only [push_cmd_loop, advance, List.length_nil, List.map_nil, List.append_nil,
      Nat.add_zero]
  | cons i rest ih =>
    have h0 : ¬ s.bus 0 < 0 := not_lt.mpr (h 0 (by simp))
    rw [push_cmd_loop_cons, instr_step]
    simp only [h0, if_false, ne_eq, not_true_eq_false]
    rw [ih]
    · rw [advance_advance]
      simp [Nat.add_comm]
    · intro n hn
      rw [advance_bus]
      exact h (n + 1) (by simpa using hn)

theorem push_cmd_loop_fail (prog : List ili9881c_instr) (ret : Int) (s : Device) (k : Nat)
    (hk : k < prog.length) (hok : ∀ n, n < k → 0 ≤ s.bus n) (hfail : s.bus k < 0) :
    push_cmd_loop prog ret s
      = (s.bus k, advance s (k + 1) ((prog.take (k + 1)).map instr_write)) := by
  induction prog generalizing s k ret with
  | nil => simp at hk
  | cons i rest ih =>
    rw [push_cmd_loop_cons, instr_step]
    cases k with
    | zero =>
      have hne : s.bus 0 ≠ 0 := ne_of_lt hfail
      simp [hfail, hne]
    | succ k =>
      have h0 : ¬ s.bus 0 < 0 := not_lt.mpr (hok 0 (by omega))
      simp only [h0, if_false, ne_eq, not_true_eq_false]
      rw [ih 0 _ k]
      · rw [advance_advance, advance_bus, Nat.add_comm 1 (k + 1)]
        simp [List.take_succ_cons]
      · simpa using hk
      · intro n hn
        rw [advance_bus]
        exact hok (n + 1) (by omega)
      · rw [advance_bus]
        exact hfail

theorem push_cmd_loop_frame (prog : List ili9881c_instr) (ret : Int) (s : Device) :
    (push_cmd_loop prog ret s).2.panel = s.panel
      ∧ (push_cmd_loop prog ret s).2.dsi = s.dsi := by
  induction prog generalizing s ret with
  | nil => exact ⟨rfl, rfl⟩
  | cons i rest ih =>
    rw [push_cmd_loop_cons, instr_step]
    by_cases h : s.bus 0 < 0
    · have hne : s.bus 0 ≠ 0 := ne_of_lt h
      simp only [h, if_true, ne_eq, hne, not_false_eq_true]
      exact ⟨rfl, rfl⟩
    · simp only [h, if_false, ne_eq, not_true_eq_false]
      exact ih _ _

theorem gpiod_set_value_panel (d : Bool) (v : Int) (s : Device) :
    (gpiod_set_value d v s).panel = s.panel := by
  cases d <;> rfl

theorem msleep_panel (n : Nat) (s : Device) : (msleep n s).panel = s.panel := rfl

theorem set_lpm_panel (k : KernelConsts) (s : Device) : (set_lpm k s).panel = s.panel := rfl

theorem color_format_u8 (f : mipi_dsi_pixel_format) :
    color_format_from_dsi_format f % 256 = color_format_from_dsi_format f := by
  cases f <;> rfl

theorem enable_eq (k : KernelConsts) (s : Device)
    (hp : s.panel.prepared = true) (he : s.panel.enabled = false) :
    ili9806e_panel_enable k s =
      (let s0 := advance (set_lpm k s) 1 (enable_preamble s.panel.reset)
       let r1 := ili9806e_panel_push_cmd_list s0
       if r1.1 < 0 then enable_fail r1.1 r1.2
       else
         let r2 := mipi_dsi_dcs_set_pixel_format
           (color_format_from_dsi_format s.dsi.format) r1.2
         if r2.1 < 0 then enable_fail r2.1 r2.2
         else
           let r3 := mipi_dsi_dcs_exit_sleep_mode r2.2
           if r3.1 < 0 then enable_fail r3.1 r3.2
           else
             let r4 := mipi_dsi_dcs_set_display_on (msleep 125 r3.2)
             if r4.1 < 0 then enable_fail r4.1 r4.2
             else
               (0, { msleep 20 r4.2 with
                      panel := { (msleep 20 r4.2).panel with enabled := true } })) := by
  have hs0 : msleep 20 (mipi_dsi_dcs_soft_reset (msleep 100 (gpiod_set_value s.panel.reset 1
      (msleep 20 (gpiod_set_value s.panel.reset 0 (set_lpm k s)))))).2
      = advance (set_lpm k s) 1 (enable_preamble s.panel.reset) := by
    cases hr : s.panel.reset <;>
      simp [msleep, mipi_dsi_dcs_soft_reset, dsi_transfer, gpiod_set_value, advance,
        enable_preamble, set_lpm, hr]
  unfold ili9806e_panel_enable
  simp only [hp, he, Bool.false_eq_true, if_false, Bool.not_true, gpiod_set_value_panel,
    msleep_panel, set_lpm_panel]
  rw [hs0]

theorem enable_fail_snd (ret : Int) (s : Device) :
    (enable_fail ret s).1 = ret
      ∧ (enable_fail ret s).2.panel = s.panel
      ∧ (enable_fail ret s).2.log
          = s.log ++ (if s.panel.reset then [Action.gpiod_set_value 0] else []) := by
  unfold enable_fail gpiod_set_value
  cases s.panel.reset <;> simp

theorem dsi_transfer_panel (a : Action) (s : Device) :
    (dsi_transfer a s).2.panel = s.panel := rfl

theorem push_cmd_list_panel (s : Device) :
    (ili9806e_panel_push_cmd_list s).2.panel = s.panel :=
  (push_cmd_loop_frame ili9881c_init 0 s).1

/-- The flags after `enable`: untouched, or `enabled` raised on a prepared panel. -/
theorem enable_panel (k : KernelConsts) (s : Device) :
    (ili9806e_panel_enable k s).2.panel = s.panel
      ∨ (s.panel.prepared = true
          ∧ (ili9806e_panel_enable k s).2.panel = { s.panel with enabled := true }) := by
  cases he : s.panel.enabled with
  | true => left; simp [ili9806e_panel_enable, he]
  | false =>
    cases hp : s.panel.prepared with
    | false => left; simp [ili9806e_panel_enable, he, hp]
    | true =>
      rw [enable_eq k s hp he]
      dsimp only
      split_ifs
      · left
        simp only [(enable_fail_snd _ _).2.1, push_cmd_list_panel, advance_panel, set_lpm_panel]
      · left
        simp only [(enable_fail_snd _ _).2.1, push_cmd_list_panel, advance_panel, set_lpm_panel,
          mipi_dsi_dcs_set_pixel_format, dsi_transfer_panel]
      · left
        simp only [(enable_fail_snd _ _).2.1, push_cmd_list_panel, advance_panel, set_lpm_panel,
          mipi_dsi_dcs_set_pixel_format, mipi_dsi_dcs_exit_sleep_mode, dsi_transfer_panel]
      · left
        simp only [(enable_fail_snd _ _).2.1, push_cmd_list_panel, advance_panel, set_lpm_panel,
          mipi_dsi_dcs_set_pixel_format, mipi_dsi_dcs_exit_sleep_mode,
          mipi_dsi_dcs_set_display_on, dsi_transfer_panel, msleep_panel]
      · right
        simp only [push_cmd_list_panel, advance_panel, set_lpm_panel,
          mipi_dsi_dcs_set_pixel_format, mipi_dsi_dcs_exit_sleep_mode,
          mipi_dsi_dcs_set_display_on, dsi_transfer_panel, msleep_panel, and_self]

/-- The flags after `disable`: untouched, or `enabled` cleared. -/
theorem disable_panel (k : KernelConsts) (s : Device) :
    (ili9806e_panel_disable k s).2.panel = s.panel
      ∨ (ili9806e_panel_disable k s).2.panel = { s.panel with enabled := false } := by
  unfold ili9806e_panel_disable
  split_ifs
  · left; rfl
  · dsimp only
    split_ifs
    · left; rfl
    · left; rfl
    · right; rfl

/-- The driver never raises `enabled` on a panel that is not `prepared`, and
never clears `prepared` on one that is `enabled`. -/
theorem call_invariant (k : KernelConsts) (c : Call) (s : Device)
    (h : s.panel.enabled = true → s.panel.prepared = true) :
    (call k c s).2.panel.enabled = true → (call k c s).2.panel.prepared = true := by
  cases c with
  | prepare =>
    unfold call ili9806e_panel_prepare
    split_ifs with hp
    · exact h
    · intro _; rfl
  | enable =>
    unfold call
    rcases enable_panel k s with h1 | ⟨hp, h1⟩
    · rw [h1]; exact h
    · rw [h1]; intro _; exact hp
  | disable =>
    unfold call
    rcases disable_panel k s with h1 | h1
    · rw [h1]; exact h
    · rw [h1]; intro h2; simp at h2
  | unprepare =>
    unfold call ili9806e_panel_unprepare
    split_ifs with hp he
    · exact h
    · exact h
    · intro h2; exact absurd h2 he

theorem run_calls_invariant (k : KernelConsts) (cs : List Call) (s : Device)
    (h : s.panel.enabled = true → s.panel.prepared = true) :
    (run_calls k cs s).panel.enabled = true → (run_calls k cs s).panel.prepared = true := by
  induction cs generalizing s with
  | nil => exact h
  | cons c cs ih => exact ih _ (call_invariant k c s h)

theorem init_length : ili9881c_init.length = 113 := by decide

theorem lifecycle_prepared (p : ili9806e_panel) (h : lifecycle p = some .Prepared) :
    p.prepared = true ∧ p.enabled = false := by
  unfold lifecycle at h
  cases hp : p.prepared <;> cases he : p.enabled <;> simp [hp, he] at h ⊢

theorem lifecycle_enabled (p : ili9806e_panel) (h : lifecycle p = some .Enabled) :
    p.prepared = true ∧ p.enabled = true := by
  unfold lifecycle at h
  cases hp : p.prepared <;> cases he : p.enabled <;> simp [hp, he] at h ⊢

theorem lifecycle_unprepared (p : ili9806e_panel) (h : lifecycle p = some .Unprepared) :
    p.prepared = false ∧ p.enabled = false := by
  unfold lifecycle at h
  cases hp : p.prepared <;> cases he : p.enabled <;> simp [hp, he] at h ⊢

theorem dsi_transfer_advance (a : Action) (s : Device) (n : Nat) (as : List Action) :
    dsi_transfer a (advance s n as) = (s.bus n, advance s (n + 1) (as ++ [a])) := by
  simp only [dsi_transfer, advance, List.append_assoc, Nat.zero_add]
  congr 2
  funext m
  congr 1
  omega

theorem msleep_advance (m : Nat) (s : Device) (n : Nat) (as : List Action) :
    msleep m (advance s n as) = advance s n (as ++ [Action.msleep m]) := by
  simp only [msleep, advance, List.append_assoc]

theorem enable_fail_advance (ret : Int) (s : Device) (n : Nat) (as : List Action)
    (hr : s.panel.reset = true) :
    enable_fail ret (advance s n as) = (ret, advance s n (as ++ [Action.gpiod_set_value 0])) := by
  simp only [enable_fail, advance_panel, hr, if_true, gpiod_set_value, advance,
    List.append_assoc]

theorem bus_writes_append (a b : List Action) :
    bus_writes (a ++ b) = bus_writes a ++ bus_writes b := by
  simp only [bus_writes, List.filter_append]

theorem bus_writes_frames (prog : List ili9881c_instr) :
    bus_writes (prog.map instr_write) = prog.map instr_write := by
  induction prog with
  | nil => rfl
  | cons i rest ih =>
    simp only [bus_writes, List.map_cons] at ih ⊢
    rw [List.filter_cons]
    simp only [instr_write, if_true]
    rw [ih]

theorem bus_writes_preamble (reset : Bool) :
    bus_writes (enable_preamble reset) = [Action.dcs_soft_reset] := by
  cases reset <;> rfl

theorem reset_levels_append (a b : List Action) :
    reset_levels (a ++ b) = reset_levels a ++ reset_levels b := by
  simp only [reset_levels, List.filterMap_append]

/-- The transfers `enable` makes after the soft reset. -/
theorem enable_writes_eq (f : mipi_dsi_pixel_format) :
    enable_writes f = Action.dcs_soft_reset ::
      (ili9881c_init.map instr_write
        ++ [Action.dcs_set_pixel_format (color_format_from_dsi_format f),
            Action.dcs_exit_sleep_mode, Action.dcs_set_display_on]) := by
  simp only [enable_writes, List.singleton_append, List.cons_append, List.nil_append]

theorem enable_failure_result (k : KernelConsts) (s : Device) (j : Nat) (e : Int)
    (hp : s.panel.prepared = true) (hen : s.panel.enabled = false)
    (hr : s.panel.reset = true) (hj1 : 1 ≤ j) (hj2 : j ≤ 116) (he : e < 0)
    (hok : ∀ i, 1 ≤ i → i < j → 0 ≤ s.bus i) (hfail : s.bus j = e) :
    ∃ X : List Action,
      ili9806e_panel_enable k s
          = (e, advance (set_lpm k s) (j + 1)
                  (enable_preamble true ++ X ++ [Action.gpiod_set_value 0]))
        ∧ bus_writes X = (ili9881c_init.map instr_write
            ++ [Action.dcs_set_pixel_format (color_format_from_dsi_format s.dsi.format),
                Action.dcs_exit_sleep_mode, Action.dcs_set_display_on]).take j := by
  have hr2 : (set_lpm k s).panel.reset = true := hr
  rcases Nat.lt_or_ge j 114 with hlt | hge
  · obtain ⟨m, rfl⟩ : ∃ m, j = m + 1 := ⟨j - 1, by omega⟩
    have hpush : ili9806e_panel_push_cmd_list (advance (set_lpm k s) 1 (enable_preamble true))
        = (e, advance (set_lpm k s) (m + 1 + 1)
            (enable_preamble true ++ (ili9881c_init.take (m + 1)).map instr_write)) := by
      unfold ili9806e_panel_push_cmd_list
      rw [push_cmd_loop_fail ili9881c_init 0 _ m (by rw [init_length]; omega)]
      · rw [advance_advance, advance_bus, Nat.add_comm 1 (m + 1)]
        exact congrArg (fun x => (x, _)) hfail
      · intro n hn
        rw [advance_bus]
        exact hok (n + 1) (by omega) (by omega)
      · rw [advance_bus]
        show s.bus (m + 1) < 0
        rw [hfail]; exact he
    refine ⟨(ili9881c_init.take (m + 1)).map instr_write, ?_, ?_⟩
    · rw [enable_eq k s hp hen]
      simp only [hr, hpush, he, if_true]
      rw [enable_fail_advance _ _ _ _ hr2]
    · rw [bus_writes_frames, List.take_append_of_le_length, List.map_take]
      rw [List.length_map, init_length]; omega
  · have hpush : ili9806e_panel_push_cmd_list (advance (set_lpm k s) 1 (enable_preamble true))
        = (0, advance (set_lpm k s) 114
            (enable_preamble true ++ ili9881c_init.map instr_write)) := by
      unfold ili9806e_panel_push_cmd_list
      rw [push_cmd_loop_ok, advance_advance, init_length]
      intro n hn
      rw [init_length] at hn
      rw [advance_bus]
      exact hok (n + 1) (by omega) (by omega)
    have hb : ∀ i, (set_lpm k s).bus i = s.bus i := fun _ => rfl
    have hlen : (ili9881c_init.map instr_write).length = 113 := by
      rw [List.length_map, init_length]
    have htake : ∀ (n : Nat) (t : List Action),
        (ili9881c_init.map instr_write ++ t).take (113 + n)
          = ili9881c_init.map instr_write ++ t.take n := by
      intro n t
      rw [List.take_append_eq_append_take, hlen, List.take_of_length_le (by rw [hlen]; omega)]
      congr 2
      omega
    have hj : j = 114 ∨ j = 115 ∨ j = 116 := by omega
    rcases hj with rfl | rfl | rfl
    · refine ⟨ili9881c_init.map instr_write
        ++ [Action.dcs_set_pixel_format (color_format_from_dsi_format s.dsi.format)], ?_, ?_⟩
      · rw [enable_eq k s hp hen]
        simp only [hr, hpush, lt_irrefl, if_false, mipi_dsi_dcs_set_pixel_format,
          dsi_transfer_advance, hb, hfail, he, if_true, color_format_u8]
        rw [enable_fail_advance _ _ _ _ hr2]
        simp only [List.append_assoc]
      · rw [bus_writes_append, bus_writes_frames, htake 1]
        rfl
    · have h1 : ¬ s.bus 114 < 0 := not_lt.mpr (hok 114 (by omega) (by omega))
      refine ⟨ili9881c_init.map instr_write
        ++ [Action.dcs_set_pixel_format (color_format_from_dsi_format s.dsi.format),
            Action.dcs_exit_sleep_mode], ?_, ?_⟩
      · rw [enable_eq k s hp hen]
        simp only [hr, hpush, lt_irrefl, if_false, mipi_dsi_dcs_set_pixel_format,
          mipi_dsi_dcs_exit_sleep_mode,
          dsi_transfer_advance, hb, h1, hfail, he, if_true, color_format_u8]
        rw [enable_fail_advance _ _ _ _ hr2]
        simp only [List.append_assoc, List.cons_append, List.nil_append]
      · rw [bus_writes_append, bus_writes_frames, htake 2]
        rfl
    · have h1 : ¬ s.bus 114 < 0 := not_lt.mpr (hok 114 (by omega) (by omega))
      have h2 : ¬ s.bus 115 < 0 := not_lt.mpr (hok 115 (by omega) (by omega))
      refine ⟨ili9881c_init.map instr_write
        ++ [Action.dcs_set_pixel_format (color_format_from_dsi_format s.dsi.format),
            Action.dcs_exit_sleep_mode, Action.msleep 125, Action.dcs_set_display_on], ?_, ?_⟩
      · rw [enable_eq k s hp hen]
        simp only [hr, hpush, lt_irrefl, if_false, mipi_dsi_dcs_set_pixel_format,
          mipi_dsi_dcs_exit_sleep_mode, mipi_dsi_dcs_set_display_on, msleep_advance,
          dsi_transfer_advance, hb, h1, h2, hfail, he, if_true, color_format_u8]
        rw [enable_fail_advance _ _ _ _ hr2]
        simp only [List.append_assoc, List.cons_append, List.nil_append]
      · rw [bus_writes_append, bus_writes_frames, htake 3]
        rfl

/-! ## The claims -/

/-- C1: started from an Unprepared panel, after any finite sequence of
prepare / enable / disable / unprepare calls and whatever results the bus
returns, the panel is Unprepared, Prepared or Enabled; `enabled` without
`prepared` is never reached. -/
theorem lifecycle_reachable (k : KernelConsts) (cs : List Call) (s : Device)
    (_hp : s.panel.prepared = false) (he : s.panel.enabled = false) :
    (lifecycle (run_calls k cs s).panel = some .Unprepared
        ∨ lifecycle (run_calls k cs s).panel = some .Prepared
        ∨ lifecycle (run_calls k cs s).panel = some .Enabled)
      ∧ ¬ ((run_calls k cs s).panel.enabled = true
            ∧ (run_calls k cs s).panel.prepared = false) := by
  have h := run_calls_invariant k cs s (by rw [he]; intro h; cases h)
  unfold lifecycle
  cases hp2 : (run_calls k cs s).panel.prepared <;>
    cases he2 : (run_calls k cs s).panel.enabled <;>
    simp [hp2, he2] at h ⊢

theorem lifecycle_reachable_witness :
    (sample true false false (fun n => if n = 5 then -5 else 0)).panel.prepared = false
      ∧ (sample true false false (fun n => if n = 5 then -5 else 0)).panel.enabled = false
      ∧ ¬ ((run_calls linux_consts
              [.enable, .prepare, .prepare, .enable, .enable, .unprepare, .disable, .enable]
              (sample true false false (fun n => if n = 5 then -5 else 0))).panel.enabled = true
            ∧ (run_calls linux_consts
              [.enable, .prepare, .prepare, .enable, .enable, .unprepare, .disable, .enable]
              (sample true false false (fun n => if n = 5 then -5 else 0))).panel.prepared
                = false) :=
  ⟨rfl, rfl,
    (lifecycle_reachable linux_consts
      [.enable, .prepare, .prepare, .enable, .enable, .unprepare, .disable, .enable]
      (sample true false false (fun n => if n = 5 then -5 else 0)) rfl rfl).2⟩

/-- C2: `enable` on an Unprepared panel returns `-EPERM` and leaves the whole
device as it was: same flags, same DSI mode flags, nothing added to the log (no
transfer, no reset-line write, no sleep) and no bus result consumed. -/
theorem enable_unprepared (k : KernelConsts) (s : Device)
    (h : lifecycle s.panel = some .Unprepared) :
    (ili9806e_panel_enable k s).1 = -k.EPERM
      ∧ (ili9806e_panel_enable k s).2 = s
      ∧ lifecycle (ili9806e_panel_enable k s).2.panel = some .Unprepared
      ∧ bus_writes (ili9806e_panel_enable k s).2.log = bus_writes s.log
      ∧ (ili9806e_panel_enable k s).2.dsi.mode_flags = s.dsi.mode_flags := by
  have hs := lifecycle_unprepared s.panel h
  have heq : ili9806e_panel_enable k s = (-k.EPERM, s) := by
    simp [ili9806e_panel_enable, hs.1, hs.2]
  rw [heq]
  exact ⟨rfl, rfl, h, rfl, rfl⟩

theorem enable_unprepared_witness :
    (ili9806e_panel_enable linux_consts (sample true false false (fun _ => 0))).1 = -1
      ∧ (ili9806e_panel_enable linux_consts (sample true false false (fun _ => 0))).2.log = [] :=
  have h := enable_unprepared linux_consts (sample true false false (fun _ => 0)) rfl
  ⟨h.1, congrArg Device.log h.2.1⟩

/-- C3, as stated, fails: on an Enabled panel `enable` returns 0, which is not
`-EPERM`. -/
theorem enable_enabled_returns_zero :
    lifecycle (sample true true true (fun _ => 0)).panel = some .Enabled
      ∧ (ili9806e_panel_enable linux_consts (sample true true true (fun _ => 0))).1 = 0
      ∧ (ili9806e_panel_enable linux_consts (sample true true true (fun _ => 0))).1
          ≠ -linux_consts.EPERM := by
  decide

/-- C3, amended: `enable` fails with `-EPERM` on an Unprepared panel; on an
Enabled panel it returns 0 and does nothing. -/
theorem enable_not_prepared (k : KernelConsts) (s : Device) :
    (lifecycle s.panel = some .Unprepared → ili9806e_panel_enable k s = (-k.EPERM, s))
      ∧ (lifecycle s.panel = some .Enabled → ili9806e_panel_enable k s = (0, s)) := by
  constructor
  · intro h
    have hs := lifecycle_unprepared s.panel h
    simp [ili9806e_panel_enable, hs.1, hs.2]
  · intro h
    have hs := lifecycle_enabled s.panel h
    simp [ili9806e_panel_enable, hs.2]

theorem enable_not_prepared_witness :
    (ili9806e_panel_enable linux_consts (sample false false false (fun _ => -5))).1 = -1
      ∧ (ili9806e_panel_enable linux_consts (sample false true true (fun _ => -5))).1 = 0 :=
  ⟨congrArg Prod.fst
      ((enable_not_prepared linux_consts (sample false false false (fun _ => -5))).1 rfl),
   congrArg Prod.fst
      ((enable_not_prepared linux_consts (sample false true true (fun _ => -5))).2 rfl)⟩

/-- C4: on a Prepared panel with a reset line, number the transfers of `enable`
0 (soft reset), 1 to 113 (the init program, entry by entry), 114 (set pixel
format), 115 (exit sleep) and 116 (display on).  If transfer `j`, one of the
checked transfers 1 to 116, is answered with the error `e` and the checked
transfers before it are accepted, then `enable` returns `e`, the panel stays
Prepared, the last action is the reset line set to 0, and the transfers made
are exactly the first `j + 1` of the sequence: none follows the failing one. -/
theorem enable_first_failure (k : KernelConsts) (s : Device) (j : Nat) (e : Int)
    (hS : lifecycle s.panel = some .Prepared) (hr : s.panel.reset = true)
    (hj1 : 1 ≤ j) (hj2 : j ≤ 116) (he : e < 0)
    (hok : ∀ i, 1 ≤ i → i < j → 0 ≤ s.bus i) (hfail : s.bus j = e) :
    (ili9806e_panel_enable k s).1 = e
      ∧ lifecycle (ili9806e_panel_enable k s).2.panel = some .Prepared
      ∧ (reset_levels (ili9806e_panel_enable k s).2.log).getLast? = some 0
      ∧ (ili9806e_panel_enable k s).2.log.getLast? = some (Action.gpiod_set_value 0)
      ∧ bus_writes (ili9806e_panel_enable k s).2.log
          = bus_writes s.log ++ (enable_writes s.dsi.format).take (j + 1) := by
  have hs := lifecycle_prepared s.panel hS
  obtain ⟨X, hres, hX⟩ := enable_failure_result k s j e hs.1 hs.2 hr hj1 hj2 he hok hfail
  rw [hres]
  refine ⟨rfl, hS, ?_, ?_, ?_⟩
  · simp only [advance_log, reset_levels_append, ← List.append_assoc]
    simp [reset_levels]
  · simp only [advance_log, ← List.append_assoc]
    simp
  · show bus_writes (s.log ++ (enable_preamble true ++ X ++ [Action.gpiod_set_value 0])) = _
    rw [bus_writes_append, bus_writes_append, bus_writes_append, bus_writes_preamble, hX,
      enable_writes_eq, List.take_succ_cons]
    simp [bus_writes]

theorem enable_first_failure_witness :
    (ili9806e_panel_enable linux_consts
        (sample true true false (fun n => if n = 3 then -5 else 0))).1 = -5
      ∧ bus_writes (ili9806e_panel_enable linux_consts
          (sample true true false (fun n => if n = 3 then -5 else 0))).2.log
        = [Action.dcs_soft_reset, Action.dcs_write_buffer [0xff, 0xff, 0x98, 0x06, 0x04, 1],
           Action.dcs_write_buffer [0x08, 0x10], Action.dcs_write_buffer [0x20, 0x00]] := by
  have h := enable_first_failure linux_consts
    (sample true true false (fun n => if n = 3 then -5 else 0)) 3 (-5) rfl rfl
    (by decide) (by decide) (by decide)
    (by intro i h1 h2
        have hi : i ≠ 3 := by omega
        simp [sample, hi])
    rfl
  exact ⟨h.1, h.2.2.2.2⟩

/-- C5: when the host accepts the 113 transfers, `ili9806e_panel_push_cmd_list`
returns 0 and adds to the log exactly the frames of the table entries, in table
order: 113 frames, of which 4 are six-byte page switches and 109 are two-byte
register writes `[cmd, data]`; the pages are 1, 6, 7, 0 with 51, 55 and 3
register writes after pages 1, 6 and 7; the last frame is the switch to page
0. -/
theorem push_cmd_list_all_ok (s : Device) (h : ∀ n, n < 113 → 0 ≤ s.bus n) :
    (ili9806e_panel_push_cmd_list s).1 = 0
      ∧ (ili9806e_panel_push_cmd_list s).2.log = s.log ++ ili9881c_init.map instr_write
      ∧ (ili9881c_init.map instr_write).length = 113
      ∧ (∀ p, instr_write (.switch_page p)
            = Action.dcs_write_buffer [0xff, 0xff, 0x98, 0x06, 0x04, p])
      ∧ (∀ cmd data, instr_write (.command cmd data) = Action.dcs_write_buffer [cmd, data])
      ∧ (ili9881c_init.filter (fun i => !is_command i)).length = 4
      ∧ (ili9881c_init.filter is_command).length = 109
      ∧ pages ili9881c_init = [1, 6, 7, 0]
      ∧ ili9881c_init.map is_command
          = [false] ++ List.replicate 51 true ++ [false] ++ List.replicate 55 true
              ++ [false] ++ List.replicate 3 true ++ [false]
      ∧ (ili9806e_panel_push_cmd_list s).2.log.getLast?
          = some (Action.dcs_write_buffer [0xff, 0xff, 0x98, 0x06, 0x04, 0]) := by
  have hres : ili9806e_panel_push_cmd_list s
      = (0, advance s 113 (ili9881c_init.map instr_write)) := by
    unfold ili9806e_panel_push_cmd_list
    rw [push_cmd_loop_ok ili9881c_init s (by rw [init_length]; exact h), init_length]
  have hlast : (ili9881c_init.map instr_write).getLast?
      = some (Action.dcs_write_buffer [0xff, 0xff, 0x98, 0x06, 0x04, 0]) := by decide
  rw [hres]
  refine ⟨rfl, rfl, by rw [List.length_map, init_length], fun _ => rfl, fun _ _ => rfl,
    by decide, by decide, by decide, by decide, ?_⟩
  show (s.log ++ ili9881c_init.map instr_write).getLast? = _
  rw [List.getLast?_append, hlast]
  rfl

theorem push_cmd_list_all_ok_witness :
    (ili9806e_panel_push_cmd_list (sample true true false (fun n => if n < 113 then 2 else -5))).1
        = 0
      ∧ (ili9806e_panel_push_cmd_list
          (sample true true false (fun n => if n < 113 then 2 else -5))).2.log
        = ili9881c_init.map instr_write := by
  have h := push_cmd_list_all_ok (sample true true false (fun n => if n < 113 then 2 else -5))
    (by intro n hn; simp [sample, hn])
  exact ⟨h.1, h.2.1⟩

/-- C6: for `1 ≤ k ≤ 113` and an error `e`, if the host accepts the first
`k - 1` transfers and answers the `k`-th with `e`, then
`ili9806e_panel_push_cmd_list` returns `e` and adds to the log exactly the
frames of the first `k` table entries, once each and in order: nothing after
the failure, no second attempt. -/
theorem push_cmd_list_first_failure (s : Device) (k : Nat) (e : Int)
    (hk1 : 1 ≤ k) (hk2 : k ≤ 113) (he : e < 0)
    (hok : ∀ n, n < k - 1 → 0 ≤ s.bus n) (hfail : s.bus (k - 1) = e) :
    (ili9806e_panel_push_cmd_list s).1 = e
      ∧ (ili9806e_panel_push_cmd_list s).2.log
          = s.log ++ (ili9881c_init.take k).map instr_write
      ∧ ((ili9881c_init.take k).map instr_write).length = k := by
  obtain ⟨m, rfl⟩ : ∃ m, k = m + 1 := ⟨k - 1, by omega⟩
  have hres : ili9806e_panel_push_cmd_list s
      = (s.bus m, advance s (m + 1) ((ili9881c_init.take (m + 1)).map instr_write)) := by
    unfold ili9806e_panel_push_cmd_list
    exact push_cmd_loop_fail ili9881c_init 0 s m (by rw [init_length]; omega) hok
      (by rw [show s.bus m = e from hfail]; exact he)
  rw [hres]
  refine ⟨hfail, rfl, ?_⟩
  rw [List.length_map, List.length_take, init_length]
  omega

theorem push_cmd_list_first_failure_witness :
    (ili9806e_panel_push_cmd_list (sample true true false (fun n => if n = 2 then -5 else 6))).1
        = -5
      ∧ (ili9806e_panel_push_cmd_list
          (sample true true false (fun n => if n = 2 then -5 else 6))).2.log
        = [Action.dcs_write_buffer [0xff, 0xff, 0x98, 0x06, 0x04, 1],
           Action.dcs_write_buffer [0x08, 0x10], Action.dcs_write_buffer [0x20, 0x00]] := by
  have h := push_cmd_list_first_failure
    (sample true true false (fun n => if n = 2 then -5 else 6)) 3 (-5)
    (by decide) (by decide) (by decide)
    (by intro n hn
        have hn2 : n ≠ 2 := by omega
        simp [sample, hn2])
    rfl
  exact ⟨h.1, h.2.1⟩

/-- C7: `color_format_from_dsi_format` gives 0x55 for RGB565, 0x66 for RGB666
and RGB666_PACKED, 0x77 for RGB888 and for any other value; its result is
always one of 0x55, 0x66, 0x77. -/
theorem color_format_table :
    color_format_from_dsi_format .MIPI_DSI_FMT_RGB565 = 0x55
      ∧ color_format_from_dsi_format .MIPI_DSI_FMT_RGB666 = 0x66
      ∧ color_format_from_dsi_format .MIPI_DSI_FMT_RGB666_PACKED = 0x66
      ∧ color_format_from_dsi_format .MIPI_DSI_FMT_RGB888 = 0x77
      ∧ (∀ raw, color_format_from_dsi_format (.other raw) = 0x77)
      ∧ (∀ f, color_format_from_dsi_format f = 0x55 ∨ color_format_from_dsi_format f = 0x66
            ∨ color_format_from_dsi_format f = 0x77) := by
  refine ⟨rfl, rfl, rfl, rfl, fun _ => rfl, ?_⟩
  intro f
  cases f <;> simp [color_format_from_dsi_format]

/-- C8: `prepare` always returns 0; a second `prepare` returns 0 and leaves the
device exactly as the first left it; `prepare` adds nothing to the log (no
transfer, no reset-line write) and consumes no bus result; it only raises
`prepared`, so an Unprepared panel becomes Prepared. -/
theorem prepare_idempotent (s : Device) :
    (ili9806e_panel_prepare s).1 = 0
      ∧ (ili9806e_panel_prepare (ili9806e_panel_prepare s).2).1 = 0
      ∧ (ili9806e_panel_prepare (ili9806e_panel_prepare s).2).2 = (ili9806e_panel_prepare s).2
      ∧ (ili9806e_panel_prepare s).2.log = s.log
      ∧ (ili9806e_panel_prepare s).2.bus = s.bus
      ∧ (ili9806e_panel_prepare s).2.dsi = s.dsi
      ∧ (ili9806e_panel_prepare s).2.panel = { s.panel with prepared := true }
      ∧ (lifecycle s.panel = some .Unprepared
          → lifecycle (ili9806e_panel_prepare s).2.panel = some .Prepared) := by
  unfold ili9806e_panel_prepare
  cases hp : s.panel.prepared with
  | true =>
    simp only [if_true, hp, true_and]
    refine ⟨?_, ?_⟩
    · rw [← hp]
    · intro h
      have := (lifecycle_unprepared s.panel h).1
      rw [hp] at this
      cases this
  | false =>
    simp only [Bool.false_eq_true, if_false, if_true, true_and]
    intro h
    have := (lifecycle_unprepared s.panel h).2
    simp [lifecycle, this]

theorem prepare_idempotent_witness :
    lifecycle (sample true false false (fun _ => -5)).panel = some .Unprepared
      ∧ lifecycle (ili9806e_panel_prepare (sample true false false (fun _ => -5))).2.panel
          = some .Prepared :=
  ⟨rfl, (prepare_idempotent (sample true false false (fun _ => -5))).2.2.2.2.2.2.2 rfl⟩

/-- C9: `unprepare` on an Enabled panel returns `-EPERM` and leaves the device
as it was; on a Prepared panel it returns 0 and the panel becomes Unprepared;
on an Unprepared panel it returns 0 and leaves the device as it was; it never
adds to the log nor consumes a bus result. -/
theorem unprepare_cases (k : KernelConsts) (s : Device) :
    (lifecycle s.panel = some .Enabled
        → (ili9806e_panel_unprepare k s).1 = -k.EPERM ∧ (ili9806e_panel_unprepare k s).2 = s)
      ∧ (lifecycle s.panel = some .Prepared
        → (ili9806e_panel_unprepare k s).1 = 0
          ∧ lifecycle (ili9806e_panel_unprepare k s).2.panel = some .Unprepared)
      ∧ (lifecycle s.panel = some .Unprepared
        → (ili9806e_panel_unprepare k s).1 = 0 ∧ (ili9806e_panel_unprepare k s).2 = s)
      ∧ (ili9806e_panel_unprepare k s).2.log = s.log
      ∧ (ili9806e_panel_unprepare k s).2.bus = s.bus
      ∧ (ili9806e_panel_unprepare k s).2.dsi = s.dsi := by
  refine ⟨?_, ?_, ?_, ?_⟩
  · intro h
    have hs := lifecycle_enabled s.panel h
    simp [ili9806e_panel_unprepare, hs.1, hs.2]
  · intro h
    have hs := lifecycle_prepared s.panel h
    simp [ili9806e_panel_unprepare, hs.1, hs.2, lifecycle]
  · intro h
    have hs := lifecycle_unprepared s.panel h
    simp [ili9806e_panel_unprepare, hs.1]
  · unfold ili9806e_panel_unprepare
    split_ifs <;> exact ⟨rfl, rfl, rfl⟩

theorem unprepare_cases_witness :
    (ili9806e_panel_unprepare linux_consts (sample true true true (fun _ => 0))).1 = -1
      ∧ lifecycle (ili9806e_panel_unprepare linux_consts
          (sample true true true (fun _ => 0))).2.panel = some .Enabled
      ∧ lifecycle (ili9806e_panel_unprepare linux_consts
          (sample true true false (fun _ => 0))).2.panel = some .Unprepared
      ∧ (ili9806e_panel_unprepare linux_consts (sample true false false (fun _ => 0))).1 = 0 :=
  ⟨((unprepare_cases linux_consts (sample true true true (fun _ => 0))).1 rfl).1,
   congrArg (fun d => lifecycle d.panel)
     ((unprepare_cases linux_consts (sample true true true (fun _ => 0))).1 rfl).2,
   ((unprepare_cases linux_consts (sample true true false (fun _ => 0))).2.1 rfl).2,
   ((unprepare_cases linux_consts (sample true false false (fun _ => 0))).2.2.1 rfl).1⟩

/-- C10: on an Enabled panel, if display-off is answered with the error `e`
then `disable` returns `e`, the panel stays Enabled and display-off is the only
action (enter-sleep is not sent); if display-off is accepted and enter-sleep is
answered with `e` then `disable` returns `e` and the panel stays Enabled. -/
theorem disable_failure (k : KernelConsts) (s : Device) (e : Int)
    (hS : lifecycle s.panel = some .Enabled) (he : e < 0) :
    (s.bus 0 = e
        → (ili9806e_panel_disable k s).1 = e
          ∧ lifecycle (ili9806e_panel_disable k s).2.panel = some .Enabled
          ∧ (ili9806e_panel_disable k s).2.log = s.log ++ [Action.dcs_set_display_off])
      ∧ (0 ≤ s.bus 0 → s.bus 1 = e
        → (ili9806e_panel_disable k s).1 = e
          ∧ lifecycle (ili9806e_panel_disable k s).2.panel = some .Enabled
          ∧ (ili9806e_panel_disable k s).2.log
              = s.log ++ [Action.dcs_set_display_off, Action.msleep 5,
                          Action.dcs_enter_sleep_mode]) := by
  have hs := lifecycle_enabled s.panel hS
  constructor
  · intro h0
    have h0lt : s.bus 0 < 0 := by rw [h0]; exact he
    have heq : ili9806e_panel_disable k s
        = (e, advance (set_lpm k s) 1 [Action.dcs_set_display_off]) := by
      unfold ili9806e_panel_disable
      simp only [hs.2, Bool.not_true, Bool.false_eq_true, if_false,
        mipi_dsi_dcs_set_display_off, dsi_transfer, set_lpm, h0lt, if_true, h0, he, advance,
        Nat.zero_add]
    rw [heq]
    exact ⟨rfl, hS, rfl⟩
  · intro h0 h1
    have h0lt : ¬ s.bus 0 < 0 := not_lt.mpr h0
    have h1lt : s.bus 1 < 0 := by rw [h1]; exact he
    have heq : ili9806e_panel_disable k s
        = (e, advance (set_lpm k s) 2
            [Action.dcs_set_display_off, Action.msleep 5, Action.dcs_enter_sleep_mode]) := by
      unfold ili9806e_panel_disable
      simp only [hs.2, Bool.not_true, Bool.false_eq_true, if_false,
        mipi_dsi_dcs_set_display_off, mipi_dsi_dcs_enter_sleep_mode, msleep, dsi_transfer,
        set_lpm, h0lt, h1lt, if_true, h1, he, advance, Nat.zero_add, List.append_assoc,
        List.singleton_append]
      congr 2
    rw [heq]
    exact ⟨rfl, hS, rfl⟩

theorem disable_failure_witness :
    ((ili9806e_panel_disable linux_consts (sample true true true (fun _ => -5))).1 = -5
        ∧ (ili9806e_panel_disable linux_consts (sample true true true (fun _ => -5))).2.log
            = [Action.dcs_set_display_off])
      ∧ (ili9806e_panel_disable linux_consts
          (sample true true true (fun n => if n = 1 then -5 else 0))).1 = -5
      ∧ lifecycle (ili9806e_panel_disable linux_consts
          (sample true true true (fun n => if n = 1 then -5 else 0))).2.panel
          = some .Enabled :=
  have h1 := (disable_failure linux_consts (sample true true true (fun _ => -5)) (-5) rfl
    (by decide)).1 rfl
  have h2 := (disable_failure linux_consts
    (sample true true true (fun n => if n = 1 then -5 else 0)) (-5) rfl (by decide)).2
    (by decide) rfl
  ⟨⟨h1.1, h1.2.2⟩, h2.1, h2.2.1⟩

/-- C11: `disable` on a panel whose `enabled` flag is clear returns 0 and leaves
the device as it was (nothing logged, no bus result consumed); on an Enabled
panel whose two transfers are accepted it returns 0, logs exactly display-off,
a 5 ms sleep, enter-sleep and a 100 ms sleep in this order, and leaves the
panel Prepared. -/
theorem disable_cases (k : KernelConsts) (s : Device) :
    (s.panel.enabled = false → ili9806e_panel_disable k s = (0, s))
      ∧ (lifecycle s.panel = some .Enabled → 0 ≤ s.bus 0 → 0 ≤ s.bus 1
        → (ili9806e_panel_disable k s).1 = 0
          ∧ (ili9806e_panel_disable k s).2.log
              = s.log ++ [Action.dcs_set_display_off, Action.msleep 5,
                          Action.dcs_enter_sleep_mode, Action.msleep 100]
          ∧ lifecycle (ili9806e_panel_disable k s).2.panel = some .Prepared) := by
  constructor
  · intro h
    simp [ili9806e_panel_disable, h]
  · intro hS h0 h1
    have hs := lifecycle_enabled s.panel hS
    have h0lt : ¬ s.bus 0 < 0 := not_lt.mpr h0
    have h1lt : ¬ s.bus 1 < 0 := not_lt.mpr h1
    have heq : ili9806e_panel_disable k s
        = (0, { advance (set_lpm k s) 2
                  [Action.dcs_set_display_off, Action.msleep 5,
                   Action.dcs_enter_sleep_mode, Action.msleep 100] with
                panel := { s.panel with enabled := false } }) := by
      unfold ili9806e_panel_disable
      simp only [hs.2, Bool.not_true, Bool.false_eq_true, if_false,
        mipi_dsi_dcs_set_display_off, mipi_dsi_dcs_enter_sleep_mode, msleep, dsi_transfer,
        set_lpm, h0lt, h1lt, advance, Nat.zero_add, List.append_assoc,
        List.singleton_append, List.cons_append, List.nil_append]
    rw [heq]
    refine ⟨rfl, rfl, ?_⟩
    simp [lifecycle, hs.1]

theorem disable_cases_witness :
    (ili9806e_panel_disable linux_consts (sample true true false (fun _ => -5))).2.log = []
      ∧ (ili9806e_panel_disable linux_consts (sample true true true (fun _ => 0))).2.log
          = [Action.dcs_set_display_off, Action.msleep 5,
             Action.dcs_enter_sleep_mode, Action.msleep 100]
      ∧ lifecycle (ili9806e_panel_disable linux_consts
          (sample true true true (fun _ => 0))).2.panel = some .Prepared :=
  have h1 := (disable_cases linux_consts (sample true true false (fun _ => -5))).1 rfl
  have h2 := (disable_cases linux_consts (sample true true true (fun _ => 0))).2 rfl
    (by decide) (by decide)
  ⟨congrArg (fun r => r.2.log) h1, h2.2.1, h2.2.2⟩

/-- C12: `ili9881c_switch_page` logs exactly one transfer, the six bytes
`0xff 0xff 0x98 0x06 0x04 page`; it returns 0 when the host result is not
negative and the host result itself when it is negative. -/
theorem switch_page_frame (page : Nat) (s : Device) :
    (ili9881c_switch_page page s).2.log
        = s.log ++ [Action.dcs_write_buffer [0xff, 0xff, 0x98, 0x06, 0x04, page]]
      ∧ [0xff, 0xff, 0x98, 0x06, 0x04, page].length = 6
      ∧ (0 ≤ s.bus 0 → (ili9881c_switch_page page s).1 = 0)
      ∧ (s.bus 0 < 0 → (ili9881c_switch_page page s).1 = s.bus 0)
      ∧ ((ili9881c_switch_page page s).1 = 0 ∨ (ili9881c_switch_page page s).1 = s.bus 0) := by
  have h := instr_step (.switch_page page) s
  simp only at h
  rw [h]
  refine ⟨rfl, rfl, ?_, ?_, ?_⟩
  · intro h0
    simp [not_lt.mpr h0]
  · intro h0
    simp [h0]
  · by_cases h0 : s.bus 0 < 0
    · right; simp [h0]
    · left; simp [h0]

theorem switch_page_frame_witness :
    (ili9881c_switch_page 7 (sample true true false (fun _ => 6))).1 = 0
      ∧ (ili9881c_switch_page 7 (sample true true false (fun _ => -5))).1 = -5 :=
  ⟨(switch_page_frame 7 (sample true true false (fun _ => 6))).2.2.1 (by decide),
   (switch_page_frame 7 (sample true true false (fun _ => -5))).2.2.2.1 (by decide)⟩

set_option maxRecDepth 8000 in
/-- C13, evaluated: on a Prepared panel whose soft reset is answered with the
error -5 and whose other transfers are accepted, `enable` returns 0, makes all
117 transfers and leaves the panel Enabled. -/
theorem enable_ignores_soft_reset_error :
    lifecycle (sample true true false (fun n => if n = 0 then -5 else 0)).panel
        = some .Prepared
      ∧ (mipi_dsi_dcs_soft_reset
          (sample true true false (fun n => if n = 0 then -5 else 0))).1 = -5
      ∧ (ili9806e_panel_enable linux_consts
          (sample true true false (fun n => if n = 0 then -5 else 0))).1 = 0
      ∧ lifecycle (ili9806e_panel_enable linux_consts
          (sample true true false (fun n => if n = 0 then -5 else 0))).2.panel
          = some .Enabled
      ∧ bus_writes (ili9806e_panel_enable linux_consts
          (sample true true false (fun n => if n = 0 then -5 else 0))).2.log
          = enable_writes .MIPI_DSI_FMT_RGB888 :=
  ⟨by decide, by decide, by decide, by decide, rfl⟩

/-- C17: the init program starts with a page switch; every register write in it
is issued while a known page other than 0 is selected; its last instruction is
the switch to page 0, and the page selected after the whole program is 0
whatever page was selected before. -/
theorem init_page_order :
    ili9881c_init.head? = some (.switch_page 1)
      ∧ writes_off_page0 none ili9881c_init = true
      ∧ ili9881c_init.getLast? = some (.switch_page 0)
      ∧ (∀ cur, final_page ili9881c_init cur = some 0) := by
  refine ⟨rfl, by decide, by decide, ?_⟩
  intro cur
  rfl

/-! ## Facts for the second group of claims -/

theorem quiet_ext_refl (s : Device) : quiet_ext s s :=
  ⟨rfl, [], (List.append_nil _).symm, rfl⟩

theorem quiet_ext_trans (s t u : Device) (h1 : quiet_ext s t) (h2 : quiet_ext t u) :
    quiet_ext s u := by
  obtain ⟨hr1, r1, hl1, hq1⟩ := h1
  obtain ⟨hr2, r2, hl2, hq2⟩ := h2
  refine ⟨hr2.trans hr1, r1 ++ r2, ?_, ?_⟩
  · rw [hl2, hl1, List.append_assoc]
  · rw [reset_levels_append, hq1, hq2]
    rfl

theorem quiet_ext_advance (s : Device) (n : Nat) (as : List Action)
    (h : reset_levels as = []) : quiet_ext s (advance s n as) :=
  ⟨rfl, as, rfl, h⟩

theorem quiet_ext_msleep (m : Nat) (s : Device) : quiet_ext s (msleep m s) :=
  ⟨rfl, [Action.msleep m], rfl, rfl⟩

theorem quiet_ext_transfer (a : Action) (s : Device) (h : reset_levels [a] = []) :
    quiet_ext s (dsi_transfer a s).2 :=
  ⟨rfl, [a], rfl, h⟩

theorem quiet_ext_push (prog : List ili9881c_instr) (ret : Int) (s : Device) :
    quiet_ext s (push_cmd_loop prog ret s).2 := by
  induction prog generalizing s ret with
  | nil => exact quiet_ext_refl s
  | cons i rest ih =>
    rw [push_cmd_loop_cons, instr_step]
    have h1 : quiet_ext s (advance s 1 [instr_write i]) :=
      quiet_ext_advance s 1 _ rfl
    by_cases h : s.bus 0 < 0
    · have hne : s.bus 0 ≠ 0 := ne_of_lt h
      simp only [h, if_true, ne_eq, hne, not_false_eq_true]
      exact h1
    · simp only [h, if_false, ne_eq, not_true_eq_false]
      exact quiet_ext_trans _ _ _ h1 (ih _ _)

theorem quiet_ext_fail (ret : Int) (s t : Device) (h : quiet_ext s t)
    (hr : s.panel.reset = false) : quiet_ext s (enable_fail ret t).2 := by
  have ht : t.panel.reset = false := h.1.trans hr
  have : (enable_fail ret t).2 = t := by
    simp [enable_fail, ht]
  rw [this]
  exact h

/-- Without a reset line, everything `enable` logs after the sleep that follows
the soft reset is free of reset-line writes. -/
theorem enable_quiet (k : KernelConsts) (s : Device)
    (hp : s.panel.prepared = true) (he : s.panel.enabled = false)
    (hr : s.panel.reset = false) :
    quiet_ext (advance (set_lpm k s) 1 (enable_preamble false))
      (ili9806e_panel_enable k s).2 := by
  rw [enable_eq k s hp he, hr]
  have hr0 : (advance (set_lpm k s) 1 (enable_preamble false)).panel.reset = false := hr
  have q1 := quiet_ext_push ili9881c_init 0 (advance (set_lpm k s) 1 (enable_preamble false))
  have q2 := quiet_ext_trans _ _ _ q1 (quiet_ext_transfer
    (Action.dcs_set_pixel_format (color_format_from_dsi_format s.dsi.format % 256))
    (push_cmd_loop ili9881c_init 0 (advance (set_lpm k s) 1 (enable_preamble false))).2 rfl)
  have q3 := quiet_ext_trans _ _ _ q2 (quiet_ext_transfer Action.dcs_exit_sleep_mode _ rfl)
  have q4 := quiet_ext_trans _ _ _ (quiet_ext_trans _ _ _ q3 (quiet_ext_msleep 125 _))
    (quiet_ext_transfer Action.dcs_set_display_on _ rfl)
  have q5 := quiet_ext_trans _ _ _ q4 (quiet_ext_msleep 20 _)
  dsimp only
  split_ifs
  · exact quiet_ext_fail _ _ _ q1 hr0
  · exact quiet_ext_fail _ _ _ q2 hr0
  · exact quiet_ext_fail _ _ _ q3 hr0
  · exact quiet_ext_fail _ _ _ q4 hr0
  · exact ⟨q5.1, q5.2⟩

theorem delays_append (a b : List Action) : delays (a ++ b) = delays a ++ delays b := by
  simp only [delays, List.filterMap_append]

theorem delays_frames (prog : List ili9881c_instr) : delays (prog.map instr_write) = [] := by
  induction prog with
  | nil => rfl
  | cons i rest ih =>
    simp only [delays, List.map_cons, List.filterMap_cons, instr_write] at ih ⊢
    exact ih

theorem disable_off (k : KernelConsts) (s : Device) (h : s.panel.enabled = false) :
    ili9806e_panel_disable k s = (0, s) := by
  simp [ili9806e_panel_disable, h]

theorem disable_ok_panel (k : KernelConsts) (s : Device) (h : s.panel.enabled = true)
    (h0 : 0 ≤ s.bus 0) (h1 : 0 ≤ s.bus 1) :
    (ili9806e_panel_disable k s).2.panel = { s.panel with enabled := false } := by
  have h0lt : ¬ s.bus 0 < 0 := not_lt.mpr h0
  have h1lt : ¬ s.bus 1 < 0 := not_lt.mpr h1
  unfold ili9806e_panel_disable
  simp only [h, Bool.not_true, Bool.false_eq_true, if_false, mipi_dsi_dcs_set_display_off,
    mipi_dsi_dcs_enter_sleep_mode, msleep, dsi_transfer, set_lpm, h0lt, h1lt, Nat.zero_add]

theorem disable_fail_panel (k : KernelConsts) (s : Device) (h : s.panel.enabled = true)
    (hf : s.bus 0 < 0 ∨ (0 ≤ s.bus 0 ∧ s.bus 1 < 0)) :
    (ili9806e_panel_disable k s).2.panel = s.panel := by
  unfold ili9806e_panel_disable
  rcases hf with h0 | ⟨h0, h1⟩
  · simp only [h, Bool.not_true, Bool.false_eq_true, if_false, mipi_dsi_dcs_set_display_off,
      dsi_transfer, set_lpm, h0, if_true]
  · have h0lt : ¬ s.bus 0 < 0 := not_lt.mpr h0
    simp only [h, Bool.not_true, Bool.false_eq_true, if_false, mipi_dsi_dcs_set_display_off,
      mipi_dsi_dcs_enter_sleep_mode, msleep, dsi_transfer, set_lpm, h0lt, h1, if_true,
      Nat.zero_add]

/-- The command list returns 0 when the host accepts every transfer, and the
first negative host result otherwise. -/
theorem push_cmd_loop_sign (prog : List ili9881c_instr) (s : Device) :
    ((push_cmd_loop prog 0 s).1 = 0 ↔ ∀ n, n < prog.length → 0 ≤ s.bus n)
      ∧ (push_cmd_loop prog 0 s).1 ≤ 0 := by
  by_cases hall : ∀ n, n < prog.length → 0 ≤ s.bus n
  · rw [push_cmd_loop_ok prog s hall]
    exact ⟨⟨fun _ => hall, fun _ => rfl⟩, le_refl _⟩
  · have hex : ∃ n, n < prog.length ∧ s.bus n < 0 := by
      by_contra hne
      apply hall
      intro n hn
      by_contra hlt
      exact hne ⟨n, hn, not_le.mp hlt⟩
    classical
    have hspec := Nat.find_spec hex
    have hmin : ∀ n, n < Nat.find hex → 0 ≤ s.bus n := by
      intro n hn
      by_contra hlt
      exact Nat.find_min hex hn ⟨lt_trans hn hspec.1, not_le.mp hlt⟩
    rw [push_cmd_loop_fail prog 0 s (Nat.find hex) hspec.1 hmin hspec.2]
    exact ⟨⟨fun h0 => absurd h0 (ne_of_lt hspec.2), fun h => absurd h hall⟩,
      le_of_lt hspec.2⟩

/-- C16: on a Prepared panel with a reset line, when the host accepts every
transfer, `enable` returns 0, the panel becomes Enabled, and the actions logged
are exactly: reset line 0, 20 ms, reset line 1, 100 ms, soft reset, 20 ms, the
113 frames of the init table in order, set pixel format with the code of
`color_format_from_dsi_format`, exit sleep, 125 ms, display on, 20 ms; the
sleeps add up to 285 ms. -/
theorem enable_all_ok (k : KernelConsts) (s : Device)
    (hS : lifecycle s.panel = some .Prepared) (hr : s.panel.reset = true)
    (hok : ∀ i, i ≤ 116 → 0 ≤ s.bus i) :
    (ili9806e_panel_enable k s).1 = 0
      ∧ lifecycle (ili9806e_panel_enable k s).2.panel = some .Enabled
      ∧ (ili9806e_panel_enable k s).2.log = s.log ++ enable_actions true s.dsi.format
      ∧ enable_actions true s.dsi.format
          = [Action.gpiod_set_value 0, Action.msleep 20, Action.gpiod_set_value 1,
             Action.msleep 100, Action.dcs_soft_reset, Action.msleep 20]
            ++ ili9881c_init.map instr_write
            ++ [Action.dcs_set_pixel_format (color_format_from_dsi_format s.dsi.format),
                Action.dcs_exit_sleep_mode, Action.msleep 125, Action.dcs_set_display_on,
                Action.msleep 20]
      ∧ (ili9881c_init.map instr_write).length = 113
      ∧ delays (enable_actions true s.dsi.format) = [20, 100, 20, 125, 20]
      ∧ (delays (enable_actions true s.dsi.format)).sum = 285 := by
  have hs := lifecycle_prepared s.panel hS
  have hpush : ili9806e_panel_push_cmd_list (advance (set_lpm k s) 1 (enable_preamble true))
      = (0, advance (set_lpm k s) 114
          (enable_preamble true ++ ili9881c_init.map instr_write)) := by
    unfold ili9806e_panel_push_cmd_list
    rw [push_cmd_loop_ok, advance_advance, init_length]
    intro n hn
    rw [init_length] at hn
    rw [advance_bus]
    exact hok (n + 1) (by omega)
  have hb : ∀ i, (set_lpm k s).bus i = s.bus i := fun _ => rfl
  have h1 : ¬ s.bus 114 < 0 := not_lt.mpr (hok 114 (by omega))
  have h2 : ¬ s.bus 115 < 0 := not_lt.mpr (hok 115 (by omega))
  have h3 : ¬ s.bus 116 < 0 := not_lt.mpr (hok 116 (by omega))
  have heq : ili9806e_panel_enable k s
      = (0, { advance (set_lpm k s) 117 (enable_actions true s.dsi.format) with
              panel := { s.panel with enabled := true } }) := by
    rw [enable_eq k s hs.1 hs.2]
    simp only [hr, hpush, lt_irrefl, if_false, mipi_dsi_dcs_set_pixel_format,
      mipi_dsi_dcs_exit_sleep_mode, mipi_dsi_dcs_set_display_on, msleep_advance,
      dsi_transfer_advance, hb, h1, h2, h3, color_format_u8, advance_panel, set_lpm_panel,
      enable_actions, List.append_assoc, List.cons_append, List.nil_append]
  have hd : delays (enable_actions true s.dsi.format) = [20, 100, 20, 125, 20] := by
    unfold enable_actions
    rw [delays_append, delays_append, delays_frames]
    rfl
  rw [heq, hd]
  refine ⟨rfl, ?_, rfl, rfl, ?_, rfl, rfl⟩
  · simp [lifecycle, hs.1]
  · rw [List.length_map, init_length]

theorem enable_all_ok_witness :
    (ili9806e_panel_enable linux_consts (sample true true false (fun _ => 0))).1 = 0
      ∧ lifecycle (ili9806e_panel_enable linux_consts
          (sample true true false (fun _ => 0))).2.panel = some .Enabled
      ∧ (ili9806e_panel_enable linux_consts (sample true true false (fun _ => 0))).2.log
          = [] ++ enable_actions true .MIPI_DSI_FMT_RGB888 :=
  have h := enable_all_ok linux_consts (sample true true false (fun _ => 0)) rfl rfl
    (fun _ _ => le_refl _)
  ⟨h.1, h.2.1, h.2.2.1⟩

set_option maxRecDepth 8000 in
/-- C18, as stated, fails: on a Prepared panel without a reset line the first
action of `enable` is the 20 ms sleep, not the soft reset, and the 100 ms sleep
follows it. -/
theorem enable_without_reset_sleeps :
    lifecycle (sample false true false (fun _ => 0)).panel = some .Prepared
      ∧ (sample false true false (fun _ => 0)).panel.reset = false
      ∧ (ili9806e_panel_enable linux_consts (sample false true false (fun _ => 0))).2.log.head?
          ≠ some Action.dcs_soft_reset
      ∧ (ili9806e_panel_enable linux_consts (sample false true false (fun _ => 0))).2.log.take 3
          = [Action.msleep 20, Action.msleep 100, Action.dcs_soft_reset] := by
  decide

/-- C18, amended: on a Prepared panel without a reset line, whatever the host
answers, `enable` writes nothing to the reset line but still sleeps 20 ms and
100 ms: what it logs starts with these two sleeps, then the soft reset, which is
its first transfer, then a 20 ms sleep. -/
theorem enable_without_reset (k : KernelConsts) (s : Device)
    (hS : lifecycle s.panel = some .Prepared) (hr : s.panel.reset = false) :
    (∃ rest, (ili9806e_panel_enable k s).2.log
        = s.log ++ [Action.msleep 20, Action.msleep 100, Action.dcs_soft_reset,
                    Action.msleep 20] ++ rest)
      ∧ reset_levels (ili9806e_panel_enable k s).2.log = reset_levels s.log := by
  have hs := lifecycle_prepared s.panel hS
  obtain ⟨_, rest, hlog, hq⟩ := enable_quiet k s hs.1 hs.2 hr
  have hlog2 : (ili9806e_panel_enable k s).2.log
      = s.log ++ [Action.msleep 20, Action.msleep 100, Action.dcs_soft_reset,
                  Action.msleep 20] ++ rest := hlog
  refine ⟨⟨rest, hlog2⟩, ?_⟩
  rw [hlog2, reset_levels_append, reset_levels_append, hq]
  simp [reset_levels]

theorem enable_without_reset_witness :
    reset_levels (ili9806e_panel_enable linux_consts
        (sample false true false (fun n => if n = 4 then -5 else 0))).2.log
      = reset_levels (sample false true false (fun n => if n = 4 then -5 else 0)).log :=
  (enable_without_reset linux_consts
    (sample false true false (fun n => if n = 4 then -5 else 0)) rfl rfl).2

/-- C19: `ili9881c_switch_page` and `ili9881c_send_cmd_data` return 0 for every
host result that is not negative; `ili9806e_panel_push_cmd_list` returns 0
exactly when the host results of the 113 transfers are all non-negative, and
its return value is never positive. -/
theorem push_cmd_list_result (s : Device) :
    (∀ page, 0 ≤ s.bus 0 → (ili9881c_switch_page page s).1 = 0)
      ∧ (∀ cmd data, 0 ≤ s.bus 0 → (ili9881c_send_cmd_data cmd data s).1 = 0)
      ∧ ((ili9806e_panel_push_cmd_list s).1 = 0 ↔ ∀ n, n < 113 → 0 ≤ s.bus n)
      ∧ (ili9806e_panel_push_cmd_list s).1 ≤ 0
      ∧ ((ili9806e_panel_push_cmd_list s).1 = 0 ∨ (ili9806e_panel_push_cmd_list s).1 < 0) := by
  have hsign := push_cmd_loop_sign ili9881c_init s
  rw [init_length] at hsign
  refine ⟨?_, ?_, hsign.1, hsign.2, ?_⟩
  · intro page h0
    have h := instr_step (.switch_page page) s
    simp only at h
    rw [h]
    simp [not_lt.mpr h0]
  · intro cmd data h0
    have h := instr_step (.command cmd data) s
    simp only at h
    rw [h]
    simp [not_lt.mpr h0]
  · rcases lt_or_eq_of_le hsign.2 with h | h
    · right; exact h
    · left; exact h

theorem push_cmd_list_result_witness :
    (ili9881c_switch_page 1 (sample true true false (fun _ => 6))).1 = 0
      ∧ (ili9806e_panel_push_cmd_list (sample true true false (fun _ => 6))).1 = 0 :=
  have h := push_cmd_list_result (sample true true false (fun _ => 6))
  ⟨h.1 1 (by decide), h.2.2.1.mpr (fun _ _ => (by decide : (0 : Int) ≤ 6))⟩

/-- C20: from an Unprepared, Prepared or Enabled panel, `shutdown` leaves the
panel Unprepared when the host accepts display-off and enter-sleep (and, on a
panel that is not enabled, whatever the host would answer); on an Enabled panel
one of whose two transfers is answered with an error it leaves the panel
Enabled. -/
theorem shutdown_cases (k : KernelConsts) (s : Device) (hreach : lifecycle s.panel ≠ none) :
    (0 ≤ s.bus 0 → 0 ≤ s.bus 1
        → lifecycle (ili9806e_panel_shutdown k s).panel = some .Unprepared)
      ∧ (s.panel.enabled = false
        → lifecycle (ili9806e_panel_shutdown k s).panel = some .Unprepared)
      ∧ (lifecycle s.panel = some .Enabled → (s.bus 0 < 0 ∨ (0 ≤ s.bus 0 ∧ s.bus 1 < 0))
        → lifecycle (ili9806e_panel_shutdown k s).panel = some .Enabled) := by
  have hoff : s.panel.enabled = false
      → lifecycle (ili9806e_panel_shutdown k s).panel = some .Unprepared := by
    intro he
    unfold ili9806e_panel_shutdown
    rw [disable_off k s he]
    unfold ili9806e_panel_unprepare
    cases hp : s.panel.prepared <;> simp [lifecycle, hp, he]
  refine ⟨?_, hoff, ?_⟩
  · intro h0 h1
    cases he : s.panel.enabled with
    | false => exact hoff he
    | true =>
      have hp : s.panel.prepared = true := by
        cases hp : s.panel.prepared with
        | true => rfl
        | false => exact absurd (by simp [lifecycle, hp, he]) hreach
      have hpan := disable_ok_panel k s he h0 h1
      unfold ili9806e_panel_shutdown ili9806e_panel_unprepare
      simp [hpan, hp, lifecycle]
  · intro hS hf
    have hs := lifecycle_enabled s.panel hS
    have hpan := disable_fail_panel k s hs.2 hf
    unfold ili9806e_panel_shutdown ili9806e_panel_unprepare
    simp [hpan, hs.1, hs.2, hS]

theorem shutdown_cases_witness :
    lifecycle (ili9806e_panel_shutdown linux_consts
        (sample true true true (fun _ => 0))).panel = some .Unprepared
      ∧ lifecycle (ili9806e_panel_shutdown linux_consts
        (sample true true true (fun n => if n = 1 then -5 else 0))).panel = some .Enabled :=
  ⟨(shutdown_cases linux_consts (sample true true true (fun _ => 0)) (by decide)).1
      (by decide) (by decide),
   (shutdown_cases linux_consts (sample true true true (fun n => if n = 1 then -5 else 0))
      (by decide)).2.2 rfl (Or.inr ⟨by decide, by decide⟩)⟩

theorem has_flag_or_right (x y b : Nat) (h : has_flag x b = true) :
    has_flag (x ||| y) b = true := by
  simp only [has_flag, beq_iff_eq] at h ⊢
  apply Nat.eq_of_testBit_eq
  intro i
  have hi := congrArg (fun n => n.testBit i) h
  simp only [Nat.testBit_and, Nat.testBit_or] at hi ⊢
  cases hx : x.testBit i <;> cases hy : y.testBit i <;> cases hb : b.testBit i <;>
    simp [hx, hb] at hi ⊢

theorem has_flag_default (k : KernelConsts) :
    has_flag (k.MIPI_DSI_MODE_VIDEO ||| k.MIPI_DSI_MODE_VIDEO_BURST ||| k.MIPI_DSI_MODE_LPM)
      k.MIPI_DSI_MODE_VIDEO_BURST = true := by
  simp only [has_flag, beq_iff_eq]
  apply Nat.eq_of_testBit_eq
  intro i
  simp only [Nat.testBit_and, Nat.testBit_or]
  cases k.MIPI_DSI_MODE_VIDEO.testBit i <;> cases k.MIPI_DSI_MODE_VIDEO_BURST.testBit i <;>
    cases k.MIPI_DSI_MODE_LPM.testBit i <;> rfl

/-- The end of probe keeps the DSI device and the stored video mode. -/
theorem probe_tail_keeps (env : ProbeEnv) (s : Device) :
    ∃ d, (probe_tail env s).2 = some d ∧ d.dsi = s.dsi ∧ d.panel.vm = s.panel.vm
      ∧ d.panel.prepared = s.panel.prepared ∧ d.panel.enabled = s.panel.enabled := by
  unfold probe_tail
  cases env.panel_width_mm <;> cases env.panel_height_mm <;> cases env.reset_found <;>
    (dsimp only
     split_ifs <;> exact ⟨_, rfl, rfl, rfl, rfl, rfl⟩)

/-- Whatever `video-mode` says, the mode flags probe stores have the burst
bit. -/
theorem probe_burst_always (k : KernelConsts) (env : ProbeEnv) (bus : Nat → Int) (d : Device)
    (h : (ili9806e_panel_probe k env bus).2 = some d) :
    has_flag d.dsi.mode_flags k.MIPI_DSI_MODE_VIDEO_BURST = true := by
  have hv : ∀ v, has_flag (probe_video_mode k
      (k.MIPI_DSI_MODE_VIDEO ||| k.MIPI_DSI_MODE_VIDEO_BURST ||| k.MIPI_DSI_MODE_LPM) v)
      k.MIPI_DSI_MODE_VIDEO_BURST = true := by
    intro v
    unfold probe_video_mode
    split
    · exact has_flag_default k
    · exact has_flag_or_right _ _ _ (has_flag_default k)
    · exact has_flag_default k
    · exact has_flag_or_right _ _ _ (has_flag_default k)
    · exact has_flag_default k
  unfold ili9806e_panel_probe at h
  cases ha : env.kzalloc_ok with
  | false => simp [ha] at h
  | true =>
    simp only [ha, Bool.not_true, Bool.false_eq_true, if_false] at h
    cases ht : env.display_timings with
    | none =>
      simp only [ht] at h
      obtain ⟨d2, hd2, hdsi, _⟩ := probe_tail_keeps env
        { panel := { reset := false, prepared := false, enabled := false,
                     vm := videomode_from_timing ili9806e_default_timing,
                     width_mm := 0, height_mm := 0 },
          dsi := { lanes := 2, format := .MIPI_DSI_FMT_RGB888,
                   mode_flags := probe_video_mode k
                     (k.MIPI_DSI_MODE_VIDEO ||| k.MIPI_DSI_MODE_VIDEO_BURST
                       ||| k.MIPI_DSI_MODE_LPM) env.video_mode },
          bus := bus, log := [] }
      rw [hd2] at h
      cases h
      rw [hdsi]
      exact hv _
    | some rv =>
      obtain ⟨ret, vm⟩ := rv
      simp only [ht] at h
      obtain ⟨d2, hd2, hdsi, _⟩ := probe_tail_keeps env
        { panel := { reset := false, prepared := false, enabled := false,
                     vm := vm, width_mm := 0, height_mm := 0 },
          dsi := { lanes := 2, format := .MIPI_DSI_FMT_RGB888,
                   mode_flags := probe_video_mode k
                     (k.MIPI_DSI_MODE_VIDEO ||| k.MIPI_DSI_MODE_VIDEO_BURST
                       ||| k.MIPI_DSI_MODE_LPM) env.video_mode },
          bus := bus, log := [] }
      split_ifs at h
      · cases h
        exact hv _
      · rw [hd2] at h
        cases h
        rw [hdsi]
        exact hv _

/-- C14, evaluated: with the header values of the flags, `probe` stores the
mode flags 2051 (video, burst, low power) when `video-mode` is absent, 0 or 1,
and 2055 (the same with sync pulse) when it is 2; the burst bit is set in
both, so the selectors 1 and 2 do not give a non-burst mode. -/
theorem probe_video_mode_keeps_burst :
    (ili9806e_panel_probe linux_consts { sample_env with video_mode := none }
        (fun _ => 0)).2.map (fun d => d.dsi.mode_flags) = some 2051
      ∧ (ili9806e_panel_probe linux_consts { sample_env with video_mode := some 0 }
        (fun _ => 0)).2.map (fun d => d.dsi.mode_flags) = some 2051
      ∧ (ili9806e_panel_probe linux_consts { sample_env with video_mode := some 1 }
        (fun _ => 0)).2.map (fun d => d.dsi.mode_flags) = some 2051
      ∧ (ili9806e_panel_probe linux_consts { sample_env with video_mode := some 2 }
        (fun _ => 0)).2.map (fun d => d.dsi.mode_flags) = some 2055
      ∧ (ili9806e_panel_probe linux_consts { sample_env with video_mode := some 3 }
        (fun _ => 0)).2.map (fun d => d.dsi.mode_flags) = some 2051
      ∧ has_flag 2051 linux_consts.MIPI_DSI_MODE_VIDEO_BURST = true
      ∧ has_flag 2055 linux_consts.MIPI_DSI_MODE_VIDEO_BURST = true
      ∧ has_flag 2055 linux_consts.MIPI_DSI_MODE_VIDEO_SYNC_PULSE = true
      ∧ has_flag 2051 linux_consts.MIPI_DSI_MODE_VIDEO_SYNC_PULSE = false := by
  decide

/-- C15: when the allocation succeeds and there is no `display-timings` node,
the video mode `probe` stores is the default timing: 30 000 000 Hz, 480 x 854
active, horizontal porches and sync 100 / 10 / 50, vertical 20 / 4 / 16, flags
0; and `get_modes` on that panel, when the mode can be created and the bus
formats stored, returns 1 and adds the one mode with clock 30 000 kHz, 480 x
854 displayed, totals 640 and 894, no flag, leaving the bus flags of the
connector as they were. -/
theorem probe_default_timing (k : KernelConsts) (c : DisplayConsts) (env : ProbeEnv)
    (bus : Nat → Int) (connector : drm_connector)
    (halloc : env.kzalloc_ok = true) (hnone : env.display_timings = none) :
    ∃ d, (ili9806e_panel_probe k env bus).2 = some d
      ∧ d.panel.vm = { pixelclock := 30000000, hactive := 480, hfront_porch := 100,
                       hsync_len := 10, hback_porch := 50, vactive := 854,
                       vfront_porch := 20, vsync_len := 4, vback_porch := 16, flags := 0 }
      ∧ d.panel.vm.hactive + d.panel.vm.hfront_porch + d.panel.vm.hsync_len
          + d.panel.vm.hback_porch = 640
      ∧ d.panel.vm.vactive + d.panel.vm.vfront_porch + d.panel.vm.vsync_len
          + d.panel.vm.vback_porch = 894
      ∧ ili9806e_panel_get_modes c { mode_create_ok := true, set_bus_formats_ret := 0 }
          d.panel connector
        = (1, { display_info :=
                  { width_mm := d.panel.width_mm, height_mm := d.panel.height_mm,
                    bus_flags := connector.display_info.bus_flags,
                    bus_formats := ili9806e_bus_formats c },
                probed_modes := connector.probed_modes ++
                  [{ clock := 30000, hdisplay := 480, hsync_start := 580, hsync_end := 590,
                     htotal := 640, vdisplay := 854, vsync_start := 874, vsync_end := 878,
                     vtotal := 894, flags := 0,
                     type := c.DRM_MODE_TYPE_DRIVER ||| c.DRM_MODE_TYPE_PREFERRED,
                     width_mm := d.panel.width_mm, height_mm := d.panel.height_mm }] }) := by
  obtain ⟨d, hd, _, hvm, _⟩ := probe_tail_keeps env
    { panel := { reset := false, prepared := false, enabled := false,
                 vm := videomode_from_timing ili9806e_default_timing,
                 width_mm := 0, height_mm := 0 },
      dsi := { lanes := 2, format := .MIPI_DSI_FMT_RGB888,
               mode_flags := probe_video_mode k
                 (k.MIPI_DSI_MODE_VIDEO ||| k.MIPI_DSI_MODE_VIDEO_BURST
                   ||| k.MIPI_DSI_MODE_LPM) env.video_mode },
      bus := bus, log := [] }
  have hvm2 : d.panel.vm =
      { pixelclock := 30000000, hactive := 480, hfront_porch := 100,
        hsync_len := 10, hback_porch := 50, vactive := 854,
        vfront_porch := 20, vsync_len := 4, vback_porch := 16, flags := 0 } := by
    rw [hvm]
    rfl
  refine ⟨d, ?_, hvm2, ?_, ?_, ?_⟩
  · unfold ili9806e_panel_probe
    simp only [halloc, hnone, Bool.not_true, Bool.false_eq_true, if_false]
    exact hd
  · simp only [hvm2]
  · simp only [hvm2]
  · unfold ili9806e_panel_get_modes drm_display_mode_from_videomode
      drm_display_info_set_bus_formats
    rw [hvm2]
    simp

theorem probe_default_timing_witness :
    ∃ d, (ili9806e_panel_probe linux_consts sample_env (fun _ => 0)).2 = some d
      ∧ d.panel.vm = { pixelclock := 30000000, hactive := 480, hfront_porch := 100,
                       hsync_len := 10, hback_porch := 50, vactive := 854,
                       vfront_porch := 20, vsync_len := 4, vback_porch := 16, flags := 0 }
      ∧ (ili9806e_panel_get_modes linux_display_consts
          { mode_create_ok := true, set_bus_formats_ret := 0 } d.panel
          { display_info := { width_mm := 0, height_mm := 0, bus_flags := 0,
                              bus_formats := [] },
            probed_modes := [] }).1 = 1 := by
  obtain ⟨d, h1, h2, _, _, h5⟩ := probe_default_timing linux_consts linux_display_consts
    sample_env (fun _ => 0)
    { display_info := { width_mm := 0, height_mm := 0, bus_flags := 0, bus_formats := [] },
      probed_modes := [] } rfl rfl
  exact ⟨d, h1, h2, congrArg Prod.fst h5⟩

end Ili9806e
